import Mathlib

/-!
Shallow embedding of the extended G-code lexer of
`klippy/chelper/gcode_lexer.c` and of the keyword table of
`klippy/chelper/gcode_keywords.generated.c`.

Modelling conventions:

* Input bytes are `Nat` values `0..255`.  Every character-range test in the
  C source is two-sided (`ch >= a && ch <= b` with `a, b` in `33..126`), so
  the signedness of C `char` is unobservable and plain `Nat` comparison is
  faithful for all byte values.
* The growable token buffer is modelled by the list of bytes written since
  the last `free_token` (`token_str[0 .. token_length)`); geometric growth
  and out-of-memory failures of `token_alloc` are not modelled (`token_char`
  always succeeds).  Whenever the C code reads the buffer as a NUL-terminated
  string the model reads the accumulated bytes up to the first embedded NUL
  (`cstr`), i.e. the buffer is treated as NUL-terminated at `token_length`
  (the buffer invariant documented for emission).
* The error buffer is write-only in this version of the source
  (`emit_error` formats the message but never forwards it to the `lex_error`
  callback), so instead of keeping it in the state the model records the
  formatted message in the output trace as an `Emission.errorFmt` entry.
  All other `Emission` constructors correspond one-to-one to invocations of
  the emission callbacks (`lex_keyword`, `lex_identifier`,
  `lex_str_literal`, `lex_int_literal`, `lex_float_literal`, `lex_bridge`,
  `lex_end_statement`); an emission is recorded even when the callback
  returns false, since the invocation did happen.
* Callback return values are modelled by a `Callbacks` record of boolean
  functions of the delivered payload.
* `line`/`column` are C `uint32_t`; they only feed location snapshots and
  never influence emissions, and their wrap-around at `2^32` is unreachable
  for any input considered here, so they are modelled as `Nat`.
* `int_value` is `int64_t`; every accumulation is guarded by
  `digit_exceeds` against the relevant maximum (or structurally bounded, for
  `\u` escapes), so it never overflows and is modelled as `Int`.
  `digit_count` is `int8_t` and its increment is modelled with two's
  complement wrap-around.
* The float value delivered by `lex_float_literal` is produced by the
  platform's `strtod`; the model carries the collected lexeme (which
  determines the double) as the payload, and `strtod_len` models how much of
  the lexeme `strtod` consumes (for the residual-character check in
  `emit_float`).  `wctomb` of the unicode escapes is modelled as UTF-8
  encoding, with surrogates rejected.
-/

/-- The scanner states of `state_t` in gcode_lexer.c. -/
inductive State where
  | SCAN_NEWLINE
  | SCAN_ERROR
  | SCAN_LINENO
  | SCAN_AFTER_LINENO
  | SCAN_COMMAND_NAME
  | SCAN_ARGS
  | SCAN_EXTENDED_KEY
  | SCAN_AFTER_EXTENDED_KEY
  | SCAN_AFTER_EXTENDED_SEPARATOR
  | SCAN_AFTER_TRADITIONAL_KEY
  | SCAN_ARG_VALUE
  | SCAN_COMMENT
  | SCAN_EMPTY_LINE_COMMENT
  | SCAN_EXPR
  | SCAN_AFTER_EXPR
  | SCAN_SYMBOL
  | SCAN_IDENTIFIER
  | SCAN_STR
  | SCAN_STR_ESCAPE
  | SCAN_STR_OCTAL
  | SCAN_STR_HEX
  | SCAN_STR_LOW_UNICODE
  | SCAN_STR_HIGH_UNICODE
  | SCAN_NUMBER_BASE
  | SCAN_DECIMAL
  | SCAN_HEX
  | SCAN_BINARY
  | SCAN_OCTAL
  | SCAN_DOT
  | SCAN_DECIMAL_FLOAT
  | SCAN_DECIMAL_FRACTION
  | SCAN_DECIMAL_EXPONENT_SIGN
  | SCAN_DECIMAL_EXPONENT
  | SCAN_HEX_FLOAT
  | SCAN_HEX_FRACTION
  | SCAN_HEX_EXPONENT_SIGN
  | SCAN_HEX_EXPONENT
  deriving DecidableEq, Repr

/-- The argument modes of `arg_mode_t`. -/
inductive ArgMode where
  | ARG_TRADITIONAL
  | ARG_EXTENDED
  | ARG_RAW
  deriving DecidableEq, Repr

/-- The caller-supplied `GCodeLocation` slot. -/
structure GCodeLocation where
  first_line : Nat
  first_column : Nat
  last_line : Nat
  last_column : Nat
  deriving DecidableEq, Repr

/-- The mutable fields of `struct GCodeLexer` (see the modelling notes above
for the fields that are omitted: `context` is opaque, `token_limit`,
`error_str` and `error_limit` are unobservable). -/
structure GCodeLexer where
  state : State
  token : List Nat
  expr_nesting : Nat
  int_value : Int
  digit_count : Int
  line : Nat
  column : Nat
  arg_mode : ArgMode
  after_str : State
  in_arg_value : Bool
  location : Option GCodeLocation
  deriving DecidableEq, Repr

/-- One recorded event of a scan: an emission-callback invocation, or the
formatting of a diagnostic into the lexer's error buffer (`emit_error`). -/
inductive Emission where
  | errorFmt (msg : String)
  | keyword (s : List Nat)
  | ident (s : List Nat)
  | strLit (s : List Nat)
  | intLit (v : Int)
  | floatLit (lexeme : List Nat)
  | bridge
  | endStatement
  deriving DecidableEq, Repr

/-- The return values of the emission callbacks, as functions of the
delivered payload. -/
structure Callbacks where
  keyword : List Nat → Bool
  ident : List Nat → Bool
  strLit : List Nat → Bool
  intLit : Int → Bool
  floatLit : List Nat → Bool
  bridge : Bool
  endStatement : Bool

/-- Callbacks that always accept. -/
def cb_true : Callbacks :=
  ⟨fun _ => true, fun _ => true, fun _ => true, fun _ => true, fun _ => true,
   true, true⟩

/-- Callbacks that always reject. -/
def cb_false : Callbacks :=
  ⟨fun _ => false, fun _ => false, fun _ => false, fun _ => false,
   fun _ => false, false, false⟩

/-- The bytes of a Lean string literal (all our literals are ASCII). -/
def bytes (s : String) : List Nat := s.data.map (fun c => c.toNat)

/-- A byte list rendered as a string (for formatted error messages). -/
def strOf (bs : List Nat) : String := String.mk (bs.map (fun b => Char.ofNat b))

/-- Reading the token buffer as a NUL-terminated C string. -/
def cstr (bs : List Nat) : List Nat := bs.takeWhile (fun b => b ≠ 0)

/-- `INT64_MAX`. -/
def int64_max : Int := 2 ^ 63 - 1

/-- `static const int UNICODE_MAX = 0x10ffff`. -/
def unicode_max : Int := 0x10ffff

/-- Conversion of `int64_t` to the C `int` parameter of `emit_int`
(32-bit two's complement wrap-around, as on every platform klipper
supports). -/
def wrap32 (v : Int) : Int := (v + 2 ^ 31) % 2 ^ 32 - 2 ^ 31

/-- `int8_t` two's complement wrap-around, for `digit_count`. -/
def wrap8 (v : Int) : Int := (v + 2 ^ 7) % 2 ^ 8 - 2 ^ 7

/-- `hex_digit_to_int` — note the source accepts `'A'..'Z'`, not `'A'..'F'`,
in the third test. -/
def hex_digit_to_int (ch : Nat) : Int :=
  if 48 ≤ ch ∧ ch ≤ 57 then (ch : Int) - 48          -- '0'..'9'
  else if 97 ≤ ch ∧ ch ≤ 102 then 10 + (ch : Int) - 97   -- 'a'..'f'
  else if 65 ≤ ch ∧ ch ≤ 90 then 10 + (ch : Int) - 65    -- 'A'..'Z'
  else -1

/-- `is_ident_char`. -/
def is_ident_char (ch : Nat) : Bool :=
  (97 ≤ ch ∧ ch ≤ 122)      -- 'a'..'z'
  ∨ (65 ≤ ch ∧ ch ≤ 90)     -- 'A'..'Z'
  ∨ (48 ≤ ch ∧ ch ≤ 57)     -- '0'..'9'
  ∨ ch = 95                 -- '_'
  ∨ ch = 36                 -- '$'

/-- `is_symbol_char`. -/
def is_symbol_char (ch : Nat) : Bool :=
  ch = 96 ∨ ch = 126 ∨ ch = 33 ∨ ch = 64 ∨ ch = 35 ∨ ch = 37 ∨ ch = 94
  ∨ ch = 38 ∨ ch = 42 ∨ ch = 40 ∨ ch = 41 ∨ ch = 45 ∨ ch = 43 ∨ ch = 61
  ∨ ch = 123 ∨ ch = 91 ∨ ch = 125 ∨ ch = 93 ∨ ch = 124 ∨ ch = 92
  ∨ ch = 58 ∨ ch = 44 ∨ ch = 60 ∨ ch = 46 ∨ ch = 62 ∨ ch = 63 ∨ ch = 47

/-- `continue_symbol`: the only two-character symbols are `**`, `<=`, `>=`
and `==`. -/
def continue_symbol (c1 c2 : Nat) : Bool :=
  if c1 = 42 then c2 = 42                              -- '*' '*'
  else if c1 = 60 ∨ c1 = 62 ∨ c1 = 61 then c2 = 61    -- '<' '>' '=' then '='
  else false

/-- `CASE_SPACE`: space, tab, vertical tab, carriage return. -/
def is_blank (ch : Nat) : Bool := ch = 32 ∨ ch = 9 ∨ ch = 11 ∨ ch = 13

/-- `is_dec_digit` helper for the strtod model. -/
def is_dec_digit (ch : Nat) : Bool := 48 ≤ ch ∧ ch ≤ 57

/-- A real C hexadecimal digit (for the strtod model only; the scanner's own
`hex_digit_to_int` differs, see above). -/
def is_strict_hex_digit (ch : Nat) : Bool :=
  (48 ≤ ch ∧ ch ≤ 57) ∨ (97 ≤ ch ∧ ch ≤ 102) ∨ (65 ≤ ch ∧ ch ≤ 70)

/-- Modelled from the spec: the platform's string-to-double conversion
(`strtod`, missing from src/).  `strtod_len s` is the number of bytes of the
maximal float prefix `strtod` parses.  It is only used for the
residual-character test in `emit_float`; the lexemes handed to it by the
scanner always start with a digit or `'.'`, so the leading-whitespace and
sign handling of `strtod` is irrelevant and not modelled. -/
def strtod_len (s : List Nat) : Nat :=
  let hexExp : List Nat → Nat → Nat := fun rest base =>
    match rest with
    | p :: r =>
      if p = 112 ∨ p = 80 then          -- 'p' / 'P'
        let (sgn, r2) := match r with
          | sg :: r2 => if sg = 43 ∨ sg = 45 then (1, r2) else (0, r)
          | [] => (0, r)
        let ds := r2.takeWhile is_dec_digit
        if ds.length = 0 then base else base + 1 + sgn + ds.length
      else base
    | [] => base
  let decExp : List Nat → Nat → Nat := fun rest base =>
    match rest with
    | e :: r =>
      if e = 101 ∨ e = 69 then          -- 'e' / 'E'
        let (sgn, r2) := match r with
          | sg :: r2 => if sg = 43 ∨ sg = 45 then (1, r2) else (0, r)
          | [] => (0, r)
        let ds := r2.takeWhile is_dec_digit
        if ds.length = 0 then base else base + 1 + sgn + ds.length
      else base
    | [] => base
  match s with
  | 48 :: x :: rest =>                  -- '0' then maybe 'x'/'X'
    if x = 120 ∨ x = 88 then
      let intd := rest.takeWhile is_strict_hex_digit
      let rest2 := rest.drop intd.length
      let (dot, fracd, rest3) := match rest2 with
        | 46 :: r =>                    -- '.'
          let f := r.takeWhile is_strict_hex_digit
          (1, f, r.drop f.length)
        | _ => (0, ([] : List Nat), rest2)
      if intd.length = 0 ∧ fracd.length = 0 then 1
      else hexExp rest3 (2 + intd.length + dot + fracd.length)
    else
      let intd := s.takeWhile is_dec_digit
      let rest2 := s.drop intd.length
      let (dot, fracd, rest3) := match rest2 with
        | 46 :: r =>
          let f := r.takeWhile is_dec_digit
          (1, f, r.drop f.length)
        | _ => (0, ([] : List Nat), rest2)
      decExp rest3 (intd.length + dot + fracd.length)
  | _ =>
    let intd := s.takeWhile is_dec_digit
    let rest2 := s.drop intd.length
    let (dot, fracd, rest3) := match rest2 with
      | 46 :: r =>
        let f := r.takeWhile is_dec_digit
        (1, f, r.drop f.length)
      | _ => (0, ([] : List Nat), rest2)
    if intd.length = 0 ∧ fracd.length = 0 then 0
    else decExp rest3 (intd.length + dot + fracd.length)

/-- Modelled from the spec: the platform's `wctomb` (missing from src/),
modelled as UTF-8 encoding; surrogates and out-of-range values fail
(return `none`, the model of `-1`). -/
def wctomb_utf8 (v : Int) : Option (List Nat) :=
  if v < 0 then none
  else
    let n := v.toNat
    if 0xd800 ≤ n ∧ n ≤ 0xdfff then none
    else if n < 0x80 then some [n]
    else if n < 0x800 then some [0xc0 + n / 0x40, 0x80 + n % 0x40]
    else if n < 0x10000 then
      some [0xe0 + n / 0x1000, 0x80 + n / 0x40 % 0x40, 0x80 + n % 0x40]
    else if n ≤ 0x10ffff then
      some [0xf0 + n / 0x40000, 0x80 + n / 0x1000 % 0x40,
            0x80 + n / 0x40 % 0x40, 0x80 + n % 0x40]
    else none

-- ------------------------------------------------------------------
-- Keyword table (gcode_keywords.generated.c)
-- ------------------------------------------------------------------

/-- The non-33 entries of the gperf `asso_values` table; every other byte
maps to 33 (and the table is only ever indexed with a byte). -/
def asso_value (b : Nat) : Nat :=
  if b = 10 then 4              -- '\n'
  else if b = 33 then 31        -- '!'
  else if b = 37 then 26        -- '%'
  else if b = 40 then 28        -- '('
  else if b = 41 then 23        -- ')'
  else if b = 42 then 15        -- '*'
  else if b = 43 then 18        -- '+'
  else if b = 44 then 13        -- ','
  else if b = 45 then 8         -- '-'
  else if b = 46 then 30        -- '.'
  else if b = 47 then 25        -- '/'
  else if b = 60 then 10        -- '<'
  else if b = 61 then 20        -- '='
  else if b = 62 then 5         -- '>'
  else if b = 65 then 10        -- 'A'
  else if b = 69 then 0         -- 'E'
  else if b = 73 then 0         -- 'I'
  else if b = 78 then 0         -- 'N'
  else if b = 79 then 20        -- 'O'
  else if b = 126 then 0        -- '~'
  else 33

/-- The gperf `wordlist`; gap slots hold the empty name with id 0. -/
def wordlist (k : Nat) : List Nat × Nat :=
  if k = 1 then (bytes "~", 266)
  else if k = 2 then (bytes "IF", 278)
  else if k = 3 then (bytes "NAN", 284)
  else if k = 4 then (bytes "ELSE", 279)
  else if k = 5 then (bytes "\n", 262)
  else if k = 6 then (bytes ">", 274)
  else if k = 7 then (bytes ">=", 276)
  else if k = 8 then (bytes "INFINITY", 285)
  else if k = 9 then (bytes "-", 268)
  else if k = 11 then (bytes "<", 273)
  else if k = 12 then (bytes "<=", 275)
  else if k = 13 then (bytes "AND", 264)
  else if k = 14 then (bytes ",", 281)
  else if k = 16 then (bytes "*", 271)
  else if k = 17 then (bytes "**", 270)
  else if k = 19 then (bytes "+", 267)
  else if k = 21 then (bytes "=", 265)
  else if k = 22 then (bytes "OR", 263)
  else if k = 24 then (bytes ")", 283)
  else if k = 26 then (bytes "/", 272)
  else if k = 27 then (bytes "%", 269)
  else if k = 29 then (bytes "(", 282)
  else if k = 31 then (bytes ".", 280)
  else if k = 32 then (bytes "!", 277)
  else ([], 0)

/-- `gcode_keyword_lookup`: `hash` is `len + asso_values[str[0]]`
(`MIN_WORD_LENGTH 1`, `MAX_WORD_LENGTH 8`, `MAX_HASH_VALUE 32`), followed by
a single string comparison. -/
def gcode_keyword_lookup (s : List Nat) : Option (List Nat × Nat) :=
  if 1 ≤ s.length ∧ s.length ≤ 8 then
    if s.length + asso_value (s.headD 0) ≤ 32 then
      if s = (wordlist (s.length + asso_value (s.headD 0))).1 then
        some (wordlist (s.length + asso_value (s.headD 0)))
      else none
    else none
  else none

/-- Specification of the keyword mapping: the 24 (name, token-id) pairs
present in `wordlist`. -/
def keyword_entries : List (List Nat × Nat) :=
  [(bytes "\n", 262), (bytes "OR", 263), (bytes "AND", 264),
   (bytes "=", 265), (bytes "~", 266), (bytes "+", 267), (bytes "-", 268),
   (bytes "%", 269), (bytes "**", 270), (bytes "*", 271), (bytes "/", 272),
   (bytes "<", 273), (bytes ">", 274), (bytes "<=", 275), (bytes ">=", 276),
   (bytes "!", 277), (bytes "IF", 278), (bytes "ELSE", 279),
   (bytes ".", 280), (bytes ",", 281), (bytes "(", 282), (bytes ")", 283),
   (bytes "NAN", 284), (bytes "INFINITY", 285)]

-- ------------------------------------------------------------------
-- Token buffer, location snapshots, emission helpers (gcode_lexer.c)
-- ------------------------------------------------------------------

/-- `token_char` (out-of-memory failure of `token_alloc` not modelled). -/
def token_char (l : GCodeLexer) (ch : Nat) : GCodeLexer :=
  { l with token := l.token ++ [ch] }

/-- `free_token` (the capacity and stale bytes are kept in C but are
unreadable under the NUL-at-length convention). -/
def free_token (l : GCodeLexer) : GCodeLexer := { l with token := [] }

/-- `lexer->state = s`. -/
def set_state (l : GCodeLexer) (s : State) : GCodeLexer := { l with state := s }

/-- `lexer->after_str = s`. -/
def set_after_str (l : GCodeLexer) (s : State) : GCodeLexer :=
  { l with after_str := s }

/-- `lexer->in_arg_value = b`. -/
def set_in_arg_value (l : GCodeLexer) (b : Bool) : GCodeLexer :=
  { l with in_arg_value := b }

/-- `lexer->expr_nesting = n`. -/
def set_expr_nesting (l : GCodeLexer) (n : Nat) : GCodeLexer :=
  { l with expr_nesting := n }

/-- `lexer->int_value = v`. -/
def set_int_value (l : GCodeLexer) (v : Int) : GCodeLexer :=
  { l with int_value := v }

/-- `lexer->digit_count = v`. -/
def set_digit_count (l : GCodeLexer) (v : Int) : GCodeLexer :=
  { l with digit_count := v }

/-- `lexer->arg_mode = m`. -/
def set_arg_mode (l : GCodeLexer) (m : ArgMode) : GCodeLexer :=
  { l with arg_mode := m }

/-- `TOKEN_STOP`. -/
def token_stop (l : GCodeLexer) : GCodeLexer :=
  { l with location := l.location.map (fun loc =>
      { loc with last_line := l.line, last_column := l.column + 1 }) }

/-- `TOKEN_START` (sets the first position, then `TOKEN_STOP`). -/
def token_start (l : GCodeLexer) : GCodeLexer :=
  { l with location := l.location.map (fun loc =>
      { loc with first_line := l.line, first_column := l.column,
                 last_line := l.line, last_column := l.column + 1 }) }

/-- The `ERROR(...)` macro: `emit_error` formats the message into the error
buffer (recorded in the trace) and the state becomes `SCAN_ERROR`. -/
def scan_error (l : GCodeLexer) (msg : String) : GCodeLexer × List Emission :=
  (set_state l .SCAN_ERROR, [.errorFmt msg])

/-- Result of an emit helper: new lexer, trace, C boolean return value. -/
structure ERes where
  lexer : GCodeLexer
  out : List Emission
  ok : Bool

/-- `emit_symbol`: the accumulated buffer is delivered to `lex_keyword`
(note: this version of the source passes the token *string*). -/
def emit_symbol (cb : Callbacks) (l : GCodeLexer) : ERes :=
  let l := token_stop l
  let payload := cstr l.token
  if cb.keyword payload then ⟨free_token l, [.keyword payload], true⟩
  else ⟨set_state (free_token l) .SCAN_ERROR, [.keyword payload], false⟩

/-- `emit_char_symbol`. -/
def emit_char_symbol (cb : Callbacks) (l : GCodeLexer) (ch : Nat) : ERes :=
  let l := token_char (token_start l) ch
  let l := token_char l 0          -- terminate_token
  let payload := cstr l.token
  if cb.keyword payload then ⟨free_token l, [.keyword payload], true⟩
  else ⟨set_state (free_token l) .SCAN_ERROR, [.keyword payload], false⟩

/-- `emit_bridge`. -/
def emit_bridge (cb : Callbacks) (l : GCodeLexer) : ERes :=
  let l := token_start l
  if cb.bridge then ⟨l, [.bridge], true⟩
  else ⟨set_state l .SCAN_ERROR, [.bridge], false⟩

/-- `emit_end_of_statement`: the source calls `lex_end_statement` but
ignores its return value and always moves to `SCAN_NEWLINE` returning
true. -/
def emit_end_of_statement (cb : Callbacks) (l : GCodeLexer) : ERes :=
  let l := token_start l
  let _ := cb.endStatement
  ⟨set_state l .SCAN_NEWLINE, [.endStatement], true⟩

/-- `emit_str`. -/
def emit_str (cb : Callbacks) (l : GCodeLexer) : ERes :=
  let l := token_stop l
  let l := token_char l 0          -- terminate_token
  let payload := cstr l.token
  if cb.strLit payload then ⟨free_token l, [.strLit payload], true⟩
  else ⟨set_state (free_token l) .SCAN_ERROR, [.strLit payload], false⟩

/-- `emit_possible_str`. -/
def emit_possible_str (cb : Callbacks) (l : GCodeLexer) : ERes :=
  if l.token.length ≠ 0 then emit_str cb l else ⟨l, [], true⟩

/-- `emit_ident`. -/
def emit_ident (cb : Callbacks) (l : GCodeLexer) : ERes :=
  let l := token_stop l
  let l := token_char l 0          -- terminate_token
  let payload := cstr l.token
  if cb.ident payload then ⟨free_token l, [.ident payload], true⟩
  else ⟨set_state (free_token l) .SCAN_ERROR, [.ident payload], false⟩

/-- `emit_keyword_or_identifier`: despite its name this version of the
source performs no keyword lookup and no NUL-termination; it delivers the
buffer to `lex_identifier`, frees the token and passes the callback's
result through without entering the error state itself. -/
def emit_keyword_or_identifier (cb : Callbacks) (l : GCodeLexer) : ERes :=
  let l := token_stop l
  let payload := cstr l.token
  let result := cb.ident payload
  ⟨free_token l, [.ident payload], result⟩

/-- `emit_int`: the C parameter is declared `int`, so the `int64_t`
accumulator argument is truncated to 32 bits at the call. -/
def emit_int (cb : Callbacks) (l : GCodeLexer) (value : Int) : ERes :=
  let v := wrap32 value
  let l := token_stop l
  if cb.intLit v then ⟨l, [.intLit v], true⟩
  else ⟨set_state l .SCAN_ERROR, [.intLit v], false⟩

/-- `emit_float`: terminate, convert via `strtod`, free, and fail on a
residual character (`*end`).  The delivered double is represented by the
lexeme. -/
def emit_float (cb : Callbacks) (l : GCodeLexer) : ERes :=
  let l := token_stop l
  let l := token_char l 0          -- terminate_token
  let lexeme := cstr l.token
  let l := free_token l
  if strtod_len lexeme < lexeme.length then
    let (l, es) := scan_error l ("Invalid float " ++ strOf lexeme)
    ⟨l, es, false⟩
  else if cb.floatLit lexeme then ⟨l, [.floatLit lexeme], true⟩
  else ⟨set_state l .SCAN_ERROR, [.floatLit lexeme], false⟩

/-- `digit_exceeds`: `int_value > (max - value) / base` (all operands
non-negative, so C and Lean division agree). -/
def digit_exceeds (l : GCodeLexer) (value : Int) (base : Int) (max : Int) :
    Bool :=
  l.int_value > (max - value) / base

/-- `add_safe_digit` (with the `int8_t` wrap of `digit_count`). -/
def add_safe_digit (l : GCodeLexer) (value : Int) (base : Int) : GCodeLexer :=
  { l with int_value := l.int_value * base + value,
           digit_count := wrap8 (l.digit_count + 1) }

/-- `add_digit`. -/
def add_digit (l : GCodeLexer) (value : Int) (base : Int)
    (max : Int) (err : String) : ERes :=
  if digit_exceeds l value base max then
    let (l, es) := scan_error l err
    ⟨free_token l, es, false⟩
  else ⟨add_safe_digit l value base, [], true⟩

/-- `add_str_wchar`. -/
def add_str_wchar (l : GCodeLexer) : ERes :=
  match wctomb_utf8 l.int_value with
  | none => ⟨token_char l 63, [], true⟩       -- append '?'
  | some bs => ⟨{ l with token := l.token ++ bs }, [], true⟩

/-- `enter_args`: choose the argument mode from the command name and emit
it as an identifier. -/
def enter_args (cb : Callbacks) (l : GCodeLexer) : ERes :=
  let l := set_state l .SCAN_ARGS
  let name := l.token
  if cstr name = bytes "M117" ∨ cstr name = bytes "ECHO" then
    emit_ident cb (set_arg_mode l .ARG_RAW)
  else if name.length > 1 ∧ 65 ≤ name.headD 0 ∧ name.headD 0 ≤ 90 then
    if (name.drop 1).all (fun b => 48 ≤ b ∧ b ≤ 57) then
      emit_ident cb (set_arg_mode l .ARG_TRADITIONAL)
    else
      emit_ident cb (set_arg_mode l .ARG_EXTENDED)
  else
    emit_ident cb (set_arg_mode l .ARG_EXTENDED)

/-- `enter_expr`. -/
def enter_expr (cb : Callbacks) (l : GCodeLexer) : ERes :=
  match emit_char_symbol cb l 123 with       -- '{'
  | ⟨l2, es, true⟩ =>
    ⟨set_expr_nesting (set_state l2 .SCAN_EXPR) 1, es, true⟩
  | ⟨l2, es, false⟩ => ⟨l2, es, false⟩

/-- The trailing `switch (ch)` of `end_arg_segment`. -/
def end_arg_tail (cb : Callbacks) (l : GCodeLexer) (ch : Nat) :
    GCodeLexer × List Emission :=
  if ch = 59 then (set_state l .SCAN_COMMENT, [])          -- ';'
  else if ch = 10 then                                            -- '\n'
    match emit_end_of_statement cb l with
    | ⟨l2, es, _⟩ => (set_state l2 .SCAN_NEWLINE, es)
  else (set_state l .SCAN_ARGS, [])

/-- `end_arg_segment`. -/
def end_arg_segment (cb : Callbacks) (l : GCodeLexer) (ch : Nat) :
    GCodeLexer × List Emission :=
  match l.arg_mode with
  | .ARG_TRADITIONAL =>
    if !l.in_arg_value then
      -- Empty value; the result of emit_str is discarded in the source and
      -- the trailing switch overwrites any error state it set.
      match emit_str cb (token_start l) with
      | ⟨l2, es, _⟩ =>
        match end_arg_tail cb l2 ch with
        | (l3, es2) => (l3, es ++ es2)
    else end_arg_tail cb l ch
  | .ARG_EXTENDED =>
    if !l.in_arg_value then
      match scan_error (token_start l)
          "Expected \x27=\x27 after parameter name" with
      | (l2, es) =>
        if ch = 10 then
          match emit_end_of_statement cb l2 with
          | ⟨l3, es2, _⟩ => (l3, es ++ es2)
        else (l2, es)
    else end_arg_tail cb l ch
  | .ARG_RAW =>
    if ch ≠ 13 ∧ ch ≠ 10 then
      match emit_bridge cb l with
      | ⟨l2, es, true⟩ =>
        (set_state (token_char l2 ch) .SCAN_ARG_VALUE, es)
      | ⟨l2, es, false⟩ => (l2, es)
    else end_arg_tail cb l ch

-- ------------------------------------------------------------------
-- The scanner switch: one case of gcode_lexer_scan per state
-- ------------------------------------------------------------------

/-- `TOKEN_CHAR_UPPER`'s fold. -/
def to_upper (ch : Nat) : Nat := if 97 ≤ ch ∧ ch ≤ 122 then ch - 32 else ch

/-- `TOKEN_CHAR_LOWER`'s fold. -/
def to_lower (ch : Nat) : Nat := if 65 ≤ ch ∧ ch ≤ 90 then ch + 32 else ch

/-- Result of processing one byte in one state: new lexer, trace, and
whether `BACK_UP` was executed (the byte must be re-processed). -/
structure StepOut where
  lexer : GCodeLexer
  out : List Emission
  backup : Bool

/-- `case SCAN_NEWLINE` (note `expr_nesting` is zeroed on every byte seen
in this state). -/
def step_newline (l : GCodeLexer) (ch : Nat) : StepOut :=
  let l := set_expr_nesting l 0
  if ch = 78 ∨ ch = 110 then ⟨set_state l .SCAN_LINENO, [], false⟩
  else if ch = 59 then ⟨set_state l .SCAN_EMPTY_LINE_COMMENT, [], false⟩
  else if ch = 10 ∨ is_blank ch then ⟨l, [], false⟩
  else ⟨set_state l .SCAN_COMMAND_NAME, [], true⟩

/-- `case SCAN_ERROR`. -/
def step_error_state (l : GCodeLexer) (ch : Nat) : StepOut :=
  if ch = 10 then ⟨set_state l .SCAN_NEWLINE, [], false⟩
  else ⟨l, [], false⟩

/-- `case SCAN_LINENO`. -/
def step_lineno (l : GCodeLexer) (ch : Nat) : StepOut :=
  if ch = 10 then ⟨set_state l .SCAN_NEWLINE, [], false⟩
  else if is_blank ch then ⟨set_state l .SCAN_AFTER_LINENO, [], false⟩
  else if ch = 59 then ⟨set_state l .SCAN_EMPTY_LINE_COMMENT, [], false⟩
  else if ch = 34 then
    match scan_error l "String not allowed in line number" with
    | (l2, es) => ⟨l2, es, false⟩
  else if ch = 123 then
    match scan_error l "Expression not allowed in line number" with
    | (l2, es) => ⟨l2, es, false⟩
  else ⟨l, [], false⟩

/-- `case SCAN_AFTER_LINENO`. -/
def step_after_lineno (l : GCodeLexer) (ch : Nat) : StepOut :=
  if ch = 10 then ⟨set_state l .SCAN_NEWLINE, [], false⟩
  else if is_blank ch then ⟨l, [], false⟩
  else if ch = 59 then ⟨set_state l .SCAN_EMPTY_LINE_COMMENT, [], false⟩
  else ⟨set_state l .SCAN_COMMAND_NAME, [], true⟩

/-- `case SCAN_COMMAND_NAME`. -/
def step_command_name (cb : Callbacks) (l : GCodeLexer) (ch : Nat) : StepOut :=
  if ch = 123 then
    match scan_error (free_token (token_start l))
        "Expressions not allowed in command name" with
    | (l2, es) => ⟨l2, es, false⟩
  else if ch = 34 then
    match scan_error (free_token (token_start l))
        "Strings not allowed in command name" with
    | (l2, es) => ⟨l2, es, false⟩
  else if ch = 10 then
    match emit_ident cb l with
    | ⟨l2, es, _⟩ =>
      match emit_end_of_statement cb l2 with
      | ⟨l3, es2, _⟩ => ⟨l3, es ++ es2, false⟩
  else if is_blank ch then
    match enter_args cb l with
    | ⟨l2, es, _⟩ => ⟨l2, es, false⟩
  else if ch = 59 then
    match emit_ident cb l with
    | ⟨l2, es, true⟩ => ⟨set_state l2 .SCAN_COMMENT, es, false⟩
    | ⟨l2, es, false⟩ => ⟨l2, es, false⟩
  else ⟨token_char l (to_upper ch), [], false⟩

/-- `case SCAN_ARGS`. -/
def step_args (cb : Callbacks) (l : GCodeLexer) (ch : Nat) : StepOut :=
  if ch = 123 then
    match emit_char_symbol cb (set_in_arg_value l false) 123 with
    | ⟨l2, es, true⟩ => ⟨set_state l2 .SCAN_EXPR, es, false⟩
    | ⟨l2, es, false⟩ => ⟨l2, es, false⟩
  else if ch = 34 then
    match l.arg_mode with
    | .ARG_TRADITIONAL =>
      ⟨set_state (set_after_str l .SCAN_AFTER_TRADITIONAL_KEY) .SCAN_STR,
       [], false⟩
    | .ARG_EXTENDED =>
      ⟨set_state (set_after_str (set_in_arg_value l false) .SCAN_AFTER_EXPR)
         .SCAN_STR, [], false⟩
    | .ARG_RAW => ⟨token_char l ch, [], false⟩
  else if ch = 10 then
    match emit_end_of_statement cb l with
    | ⟨l2, es, _⟩ => ⟨l2, es, false⟩
  else if ch = 59 then ⟨set_state l .SCAN_COMMENT, [], false⟩
  else if ch = 61 then
    match scan_error l "Expected parameter name before \x27=\x27" with
    | (l2, es) => ⟨l2, es, false⟩
  else if is_blank ch then ⟨l, [], false⟩
  else
    match l.arg_mode with
    | .ARG_TRADITIONAL =>
      match emit_str cb (token_char (token_start l) (to_upper ch)) with
      | ⟨l2, es, true⟩ =>
        ⟨set_state (set_in_arg_value l2 false) .SCAN_AFTER_TRADITIONAL_KEY,
         es, false⟩
      | ⟨l2, es, false⟩ => ⟨l2, es, false⟩
    | .ARG_EXTENDED =>
      let l2 := token_char (token_start l) (to_upper ch)
      ⟨set_state (set_in_arg_value l2 false) .SCAN_EXTENDED_KEY,
       [], false⟩
    | .ARG_RAW =>
      ⟨set_state (token_char (token_start l) ch) .SCAN_ARG_VALUE,
       [], false⟩

/-- `case SCAN_EXTENDED_KEY`. -/
def step_extended_key (cb : Callbacks) (l : GCodeLexer) (ch : Nat) : StepOut :=
  if ch = 10 ∨ ch = 59 then
    match end_arg_segment cb (free_token l) ch with
    | (l2, es) => ⟨l2, es, false⟩
  else if is_blank ch then
    match emit_possible_str cb l with
    | ⟨l2, es, true⟩ =>
      ⟨set_state l2 .SCAN_AFTER_EXTENDED_KEY, es, false⟩
    | ⟨l2, es, false⟩ => ⟨l2, es, false⟩
  else if ch = 61 then
    match emit_possible_str cb l with
    | ⟨l2, es, true⟩ =>
      ⟨set_state l2 .SCAN_AFTER_EXTENDED_SEPARATOR, es, false⟩
    | ⟨l2, es, false⟩ => ⟨l2, es, false⟩
  else if ch = 123 then
    match emit_possible_str cb l with
    | ⟨l2, es, true⟩ =>
      match emit_bridge cb l2 with
      | ⟨l3, es2, true⟩ =>
        match enter_expr cb l3 with
        | ⟨l4, es3, _⟩ => ⟨l4, es ++ es2 ++ es3, false⟩
      | ⟨l3, es2, false⟩ => ⟨l3, es ++ es2, false⟩
    | ⟨l2, es, false⟩ => ⟨l2, es, false⟩
  else if ch = 34 then
    match emit_possible_str cb l with
    | ⟨l2, es, true⟩ =>
      match emit_bridge cb l2 with
      | ⟨l3, es2, true⟩ =>
        ⟨set_state (set_after_str l3 .SCAN_AFTER_EXPR) .SCAN_STR,
         es ++ es2, false⟩
      | ⟨l3, es2, false⟩ => ⟨l3, es ++ es2, false⟩
    | ⟨l2, es, false⟩ => ⟨l2, es, false⟩
  else ⟨token_char l (to_upper ch), [], false⟩

/-- `case SCAN_AFTER_EXTENDED_KEY`. -/
def step_after_extended_key (cb : Callbacks) (l : GCodeLexer) (ch : Nat) :
    StepOut :=
  if ch = 61 then
    ⟨set_state l .SCAN_AFTER_EXTENDED_SEPARATOR, [], false⟩
  else if is_blank ch then ⟨l, [], false⟩
  else if ch = 59 ∨ ch = 10 then
    match end_arg_segment cb l ch with
    | (l2, es) => ⟨l2, es, false⟩
  else
    match end_arg_segment cb (set_in_arg_value l true) ch with
    | (l2, es) => ⟨l2, es, false⟩

/-- `case SCAN_AFTER_EXTENDED_SEPARATOR`. -/
def step_after_extended_separator (cb : Callbacks) (l : GCodeLexer)
    (ch : Nat) : StepOut :=
  if ch = 10 ∨ ch = 59 then
    match end_arg_segment cb l ch with
    | (l2, es) => ⟨l2, es, false⟩
  else if is_blank ch then ⟨l, [], false⟩
  else if ch = 34 then
    ⟨set_state (set_after_str (set_in_arg_value l true) .SCAN_AFTER_EXPR)
       .SCAN_STR, [], false⟩
  else if ch = 123 then
    match enter_expr cb (set_in_arg_value l true) with
    | ⟨l2, es, _⟩ => ⟨l2, es, false⟩
  else
    ⟨set_state (set_in_arg_value l true) .SCAN_ARG_VALUE, [], true⟩

/-- `case SCAN_AFTER_TRADITIONAL_KEY`. -/
def step_after_traditional_key (cb : Callbacks) (l : GCodeLexer) (ch : Nat) :
    StepOut :=
  if ch = 61 then ⟨l, [], false⟩          -- optional '=' accepted
  else if ch = 10 ∨ ch = 59 ∨ is_blank ch then
    match end_arg_segment cb l ch with
    | (l2, es) => ⟨l2, es, false⟩
  else if ch = 34 then
    ⟨set_state (set_after_str l .SCAN_ARG_VALUE) .SCAN_STR, [], false⟩
  else if ch = 123 then
    match enter_expr cb (set_in_arg_value l true) with
    | ⟨l2, es, _⟩ => ⟨l2, es, false⟩
  else
    ⟨set_in_arg_value (set_state l .SCAN_ARG_VALUE) true, [], true⟩

/-- `case SCAN_ARG_VALUE`. -/
def step_arg_value (cb : Callbacks) (l : GCodeLexer) (ch : Nat) : StepOut :=
  if ch = 10 then
    match emit_possible_str cb l with
    | ⟨l2, es, _⟩ =>
      match emit_end_of_statement cb l2 with
      | ⟨l3, es2, _⟩ => ⟨l3, es ++ es2, false⟩
  else if ch = 59 then
    if l.arg_mode = .ARG_RAW then ⟨token_char l ch, [], false⟩
    else
      match emit_possible_str cb l with
      | ⟨l2, es, true⟩ => ⟨set_state l2 .SCAN_COMMENT, es, false⟩
      | ⟨l2, es, false⟩ => ⟨l2, es, false⟩
  else if is_blank ch then
    if l.arg_mode = .ARG_RAW then ⟨token_char l ch, [], false⟩
    else
      match emit_possible_str cb l with
      | ⟨l2, es, true⟩ => ⟨set_state l2 .SCAN_ARGS, es, false⟩
      | ⟨l2, es, false⟩ => ⟨l2, es, false⟩
  else if ch = 34 then
    match emit_possible_str cb l with
    | ⟨l2, es, true⟩ =>
      match emit_bridge cb l2 with
      | ⟨l3, es2, true⟩ =>
        ⟨set_state (set_after_str l3 .SCAN_AFTER_EXPR) .SCAN_STR,
         es ++ es2, false⟩
      | ⟨l3, es2, false⟩ => ⟨l3, es ++ es2, false⟩
    | ⟨l2, es, false⟩ => ⟨l2, es, false⟩
  else if ch = 123 then
    match emit_possible_str cb l with
    | ⟨l2, es, true⟩ =>
      match emit_bridge cb l2 with
      | ⟨l3, es2, true⟩ =>
        match enter_expr cb l3 with
        | ⟨l4, es3, _⟩ => ⟨l4, es ++ es2 ++ es3, false⟩
      | ⟨l3, es2, false⟩ => ⟨l3, es ++ es2, false⟩
    | ⟨l2, es, false⟩ => ⟨l2, es, false⟩
  else ⟨token_char l ch, [], false⟩

/-- `case SCAN_COMMENT`. -/
def step_comment (cb : Callbacks) (l : GCodeLexer) (ch : Nat) : StepOut :=
  if ch = 10 then
    match emit_end_of_statement cb l with
    | ⟨l2, es, _⟩ => ⟨l2, es, false⟩
  else ⟨l, [], false⟩

/-- `case SCAN_EMPTY_LINE_COMMENT` — note: no end-of-statement emission. -/
def step_empty_line_comment (l : GCodeLexer) (ch : Nat) : StepOut :=
  if ch = 10 then ⟨set_state l .SCAN_NEWLINE, [], false⟩
  else ⟨l, [], false⟩

/-- `case SCAN_EXPR`. -/
def step_expr (cb : Callbacks) (l : GCodeLexer) (ch : Nat) : StepOut :=
  if ch = 10 then
    match scan_error (token_start l) "Unterminated expression" with
    | (l2, es) => ⟨set_state l2 .SCAN_NEWLINE, es, false⟩
  else if is_blank ch then ⟨l, [], false⟩
  else if ch = 40 then
    match emit_char_symbol cb
        (set_expr_nesting l (l.expr_nesting + 1)) 40 with
    | ⟨l2, es, _⟩ => ⟨l2, es, false⟩
  else if ch = 41 then
    if 0 < l.expr_nesting then
      match emit_char_symbol cb
          (set_expr_nesting l (l.expr_nesting - 1)) 41 with
      | ⟨l2, es, _⟩ => ⟨l2, es, false⟩
    else
      match emit_char_symbol cb l 41 with
      | ⟨l2, es, _⟩ => ⟨l2, es, false⟩
  else if ch = 125 then
    match emit_char_symbol cb (set_expr_nesting l 0) 125 with
    | ⟨l2, es, true⟩ => ⟨set_state l2 .SCAN_AFTER_EXPR, es, false⟩
    | ⟨l2, es, false⟩ => ⟨l2, es, false⟩
  else if ch = 48 then
    ⟨set_state (token_char (token_start l) 48) .SCAN_NUMBER_BASE,
     [], false⟩
  else if ch = 39 ∨ ch = 96 then
    match scan_error (token_start l)
        ("Unexpected character " ++ strOf [ch]) with
    | (l2, es) => ⟨l2, es, false⟩
  else if ch = 46 then
    ⟨set_state (token_char (token_start l) 46) .SCAN_DOT, [], false⟩
  else if ch = 34 then
    ⟨set_state (set_after_str (token_start l) .SCAN_EXPR) .SCAN_STR,
     [], false⟩
  else if 49 ≤ ch ∧ ch ≤ 57 then
    ⟨set_state (set_digit_count
         (set_int_value (token_char (token_start l) ch) ((ch : Int) - 48)) 1)
       .SCAN_DECIMAL, [], false⟩
  else if is_symbol_char ch then
    ⟨token_char (set_state (token_start l) .SCAN_SYMBOL) ch, [], false⟩
  else
    ⟨token_char (set_state (token_start l) .SCAN_IDENTIFIER)
       (to_lower ch), [], false⟩

/-- `case SCAN_AFTER_EXPR` (the bridge's result is discarded and the state
assignment below overwrites any error state it set, as in the source). -/
def step_after_expr (cb : Callbacks) (l : GCodeLexer) (ch : Nat) : StepOut :=
  if l.arg_mode = .ARG_RAW then
    match end_arg_segment cb l ch with
    | (l2, es) => ⟨l2, es, false⟩
  else if ch = 10 ∨ ch = 59 then
    match end_arg_segment cb l ch with
    | (l2, es) => ⟨l2, es, false⟩
  else if is_blank ch then
    if l.arg_mode = .ARG_EXTENDED ∧ !l.in_arg_value then
      ⟨set_state l .SCAN_AFTER_EXTENDED_KEY, [], false⟩
    else
      match end_arg_segment cb l ch with
      | (l2, es) => ⟨l2, es, false⟩
  else if l.arg_mode = .ARG_TRADITIONAL then
    if l.in_arg_value then
      if ch ≠ 34 ∧ ch ≠ 123 then
        match emit_bridge cb l with
        | ⟨l2, es, _⟩ => ⟨set_state l2 .SCAN_ARG_VALUE, es, true⟩
      else ⟨set_state l .SCAN_ARG_VALUE, [], true⟩
    else ⟨set_state l .SCAN_AFTER_TRADITIONAL_KEY, [], true⟩
  else
    if ch ≠ 34 ∧ ch ≠ 123 then
      match emit_bridge cb l with
      | ⟨l2, es, _⟩ =>
        if l2.in_arg_value then
          ⟨set_state l2 .SCAN_ARG_VALUE, es, true⟩
        else ⟨set_state l2 .SCAN_EXTENDED_KEY, es, true⟩
    else
      if l.in_arg_value then ⟨set_state l .SCAN_ARG_VALUE, [], true⟩
      else ⟨set_state l .SCAN_EXTENDED_KEY, [], true⟩

/-- `case SCAN_SYMBOL`. -/
def step_symbol (cb : Callbacks) (l : GCodeLexer) (ch : Nat) : StepOut :=
  if l.token.length = 0
     ∨ (l.token.length = 1 ∧ continue_symbol (l.token.headD 0) ch) then
    ⟨token_char l ch, [], false⟩
  else
    match emit_symbol cb l with
    | ⟨l2, es, true⟩ => ⟨set_state l2 .SCAN_EXPR, es, true⟩
    | ⟨l2, es, false⟩ => ⟨l2, es, false⟩

/-- `case SCAN_IDENTIFIER`. -/
def step_identifier (cb : Callbacks) (l : GCodeLexer) (ch : Nat) : StepOut :=
  if is_ident_char ch then ⟨token_char l (to_lower ch), [], false⟩
  else
    match emit_keyword_or_identifier cb l with
    | ⟨l2, es, false⟩ => ⟨l2, es, false⟩
    | ⟨l2, es, true⟩ =>
      if ch = 46 then
        ⟨set_state (token_char l2 46) .SCAN_DOT, es, false⟩
      else ⟨set_state l2 .SCAN_EXPR, es, true⟩

/-- `case SCAN_STR`. -/
def step_str (cb : Callbacks) (l : GCodeLexer) (ch : Nat) : StepOut :=
  if ch = 92 then ⟨set_state l .SCAN_STR_ESCAPE, [], false⟩
  else if ch = 34 then
    match emit_str cb l with
    | ⟨l2, es, true⟩ => ⟨set_state l2 l.after_str, es, false⟩
    | ⟨l2, es, false⟩ => ⟨l2, es, false⟩
  else if ch = 10 then
    match scan_error l "Unterminated string" with
    | (l2, es) => ⟨set_state (free_token l2) .SCAN_NEWLINE, es, false⟩
  else ⟨token_char l ch, [], false⟩

/-- `case SCAN_STR_ESCAPE`. -/
def step_str_escape (l : GCodeLexer) (ch : Nat) : StepOut :=
  if ch = 97 then ⟨set_state (token_char l 0x07) .SCAN_STR, [], false⟩
  else if ch = 98 then
    ⟨set_state (token_char l 0x08) .SCAN_STR, [], false⟩
  else if ch = 101 then
    ⟨set_state (token_char l 0x1b) .SCAN_STR, [], false⟩
  else if ch = 102 then
    ⟨set_state (token_char l 0x0c) .SCAN_STR, [], false⟩
  else if ch = 110 then
    ⟨set_state (token_char l 0x0a) .SCAN_STR, [], false⟩
  else if ch = 114 then
    ⟨set_state (token_char l 0x0d) .SCAN_STR, [], false⟩
  else if ch = 116 then
    ⟨set_state (token_char l 0x09) .SCAN_STR, [], false⟩
  else if ch = 118 then
    ⟨set_state (token_char l 0x0b) .SCAN_STR, [], false⟩
  else if ch = 92 then
    ⟨set_state (token_char l 0x5c) .SCAN_STR, [], false⟩
  else if ch = 39 then
    ⟨set_state (token_char l 0x27) .SCAN_STR, [], false⟩
  else if ch = 34 then
    ⟨set_state (token_char l 0x22) .SCAN_STR, [], false⟩
  else if ch = 63 then
    ⟨set_state (token_char l 0x3f) .SCAN_STR, [], false⟩
  else if ch = 120 then
    ⟨set_state (set_digit_count (set_int_value l 0) 0) .SCAN_STR_HEX,
     [], false⟩
  else if ch = 117 then
    ⟨set_state (set_digit_count (set_int_value l 0) 0) .SCAN_STR_LOW_UNICODE,
     [], false⟩
  else if ch = 85 then
    ⟨set_state (set_digit_count (set_int_value l 0) 0) .SCAN_STR_HIGH_UNICODE,
     [], false⟩
  else if ch = 10 then
    match scan_error l "Unterminated string" with
    | (l2, es) => ⟨set_state (free_token l2) .SCAN_NEWLINE, es, false⟩
  else if 48 ≤ ch ∧ ch ≤ 57 then
    ⟨set_state (set_digit_count (set_int_value l 0) 0) .SCAN_STR_OCTAL,
     [], true⟩
  else
    match scan_error l ("Illegal string escape \\" ++ strOf [ch]) with
    | (l2, es) => ⟨free_token l2, es, false⟩

/-- `case SCAN_STR_OCTAL`. -/
def step_str_octal (l : GCodeLexer) (ch : Nat) : StepOut :=
  if 48 ≤ ch ∧ ch ≤ 55 then
    match add_digit l ((ch : Int) - 48) 8 255
        "Octal escape (\\nnn) exceeds byte value" with
    | ⟨l2, es, true⟩ =>
      if l2.digit_count = 3 then
        ⟨set_state (token_char l2 l2.int_value.toNat) .SCAN_STR,
         es, false⟩
      else ⟨l2, es, false⟩
    | ⟨l2, es, false⟩ => ⟨l2, es, false⟩
  else if ch = 56 ∨ ch = 57 then
    match scan_error l "Illegal digit in octal escape (\\nnn)" with
    | (l2, es) => ⟨free_token l2, es, false⟩
  else
    ⟨set_state (token_char l l.int_value.toNat) .SCAN_STR, [], true⟩

/-- `case SCAN_STR_HEX`. -/
def step_str_hex (l : GCodeLexer) (ch : Nat) : StepOut :=
  if hex_digit_to_int ch = -1 then
    if l.digit_count = 0 then
      match scan_error l
          "Hex string escape (\\x) requires at least one digit" with
      | (l2, es) => ⟨free_token l2, es, false⟩
    else
      ⟨set_state (token_char l l.int_value.toNat) .SCAN_STR, [], true⟩
  else
    match add_digit l (hex_digit_to_int ch) 16 255
        "Hex escape exceeds byte value" with
    | ⟨l2, es, true⟩ => ⟨l2, es, false⟩
    | ⟨l2, es, false⟩ => ⟨set_state l2 .SCAN_ERROR, es, false⟩

/-- `case SCAN_STR_LOW_UNICODE` (the digit accumulation is unguarded,
`add_safe_digit`, but structurally bounded by four digits). -/
def step_str_low_unicode (l : GCodeLexer) (ch : Nat) : StepOut :=
  if hex_digit_to_int ch = -1 then
    match scan_error l
        "Low unicode escape (\\u) requires exactly four digits" with
    | (l2, es) => ⟨free_token l2, es, false⟩
  else
    if (add_safe_digit l (hex_digit_to_int ch) 16).digit_count = 4 then
      match add_str_wchar (add_safe_digit l (hex_digit_to_int ch) 16) with
      | ⟨l2, es, _⟩ => ⟨set_state l2 .SCAN_STR, es, false⟩
    else ⟨add_safe_digit l (hex_digit_to_int ch) 16, [], false⟩

/-- `case SCAN_STR_HIGH_UNICODE`. -/
def step_str_high_unicode (l : GCodeLexer) (ch : Nat) : StepOut :=
  if hex_digit_to_int ch = -1 then
    match scan_error l
        "High unicode escape (\\U) requires exactly eight digits" with
    | (l2, es) => ⟨free_token l2, es, false⟩
  else
    match add_digit l (hex_digit_to_int ch) 16 unicode_max
        "High unicode escape (\\U) exceeds unicode value" with
    | ⟨l2, es, true⟩ =>
      if l2.digit_count = 8 then
        match add_str_wchar l2 with
        | ⟨l3, es2, _⟩ => ⟨set_state l3 .SCAN_STR, es ++ es2, false⟩
      else ⟨l2, es, false⟩
    | ⟨l2, es, false⟩ => ⟨l2, es, false⟩

/-- `case SCAN_NUMBER_BASE`. -/
def step_number_base (cb : Callbacks) (l : GCodeLexer) (ch : Nat) : StepOut :=
  if ch = 98 ∨ ch = 66 then
    ⟨set_state (set_digit_count (set_int_value (free_token l) 0) 0)
       .SCAN_BINARY, [], false⟩
  else if ch = 120 ∨ ch = 88 then
    ⟨set_state (set_digit_count (set_int_value (token_char l ch) 0) 0)
       .SCAN_HEX, [], false⟩
  else if ch = 46 then
    ⟨set_state (token_char l ch) .SCAN_DECIMAL_FRACTION, [], false⟩
  else if ch = 101 ∨ ch = 69 then
    ⟨set_state (token_char l ch) .SCAN_DECIMAL_EXPONENT_SIGN,
     [], false⟩
  else if 48 ≤ ch ∧ ch ≤ 57 then
    ⟨set_state (set_int_value (free_token l) 0) .SCAN_OCTAL, [], true⟩
  else
    match emit_int cb (free_token l) 0 with
    | ⟨l2, es, true⟩ => ⟨set_state l2 .SCAN_EXPR, es, true⟩
    | ⟨l2, es, false⟩ => ⟨l2, es, true⟩

/-- `case SCAN_DECIMAL`. -/
def step_decimal (cb : Callbacks) (l : GCodeLexer) (ch : Nat) : StepOut :=
  if ch = 46 then
    ⟨set_state (token_char l ch) .SCAN_DECIMAL_FRACTION, [], false⟩
  else if ch = 101 ∨ ch = 69 then
    ⟨set_state (token_char l ch) .SCAN_DECIMAL_EXPONENT_SIGN,
     [], false⟩
  else if 48 ≤ ch ∧ ch ≤ 57 then
    if digit_exceeds l ((ch : Int) - 48) 10 int64_max then
      ⟨set_state (token_char l ch) .SCAN_DECIMAL_FLOAT, [], false⟩
    else ⟨add_safe_digit (token_char l ch) ((ch : Int) - 48) 10, [], false⟩
  else
    match emit_int cb (free_token l) l.int_value with
    | ⟨l2, es, true⟩ => ⟨set_state l2 .SCAN_EXPR, es, true⟩
    | ⟨l2, es, false⟩ => ⟨l2, es, true⟩

/-- `case SCAN_HEX`. -/
def step_hex (cb : Callbacks) (l : GCodeLexer) (ch : Nat) : StepOut :=
  if ch = 46 then
    ⟨set_state (token_char l ch) .SCAN_HEX_FRACTION, [], false⟩
  else if ch = 112 ∨ ch = 80 then
    ⟨set_state (token_char l ch) .SCAN_HEX_EXPONENT_SIGN, [], false⟩
  else if hex_digit_to_int ch ≠ -1 then
    if digit_exceeds l (hex_digit_to_int ch) 16 int64_max then
      ⟨set_state (token_char l ch) .SCAN_HEX_FLOAT, [], false⟩
    else ⟨add_safe_digit (token_char l ch) (hex_digit_to_int ch) 16,
          [], false⟩
  else
    match emit_int cb (free_token l) l.int_value with
    | ⟨l2, es, true⟩ => ⟨set_state l2 .SCAN_EXPR, es, true⟩
    | ⟨l2, es, false⟩ => ⟨l2, es, true⟩

/-- `case SCAN_BINARY`. -/
def step_binary (cb : Callbacks) (l : GCodeLexer) (ch : Nat) : StepOut :=
  if ch = 48 ∨ ch = 49 then
    match add_digit l ((ch : Int) - 48) 2 int64_max
        "Binary literal exceeds maximum value" with
    | ⟨l2, es, _⟩ => ⟨l2, es, false⟩
  else if ch = 46 then
    match scan_error l "Fractional binary literals not allowed" with
    | (l2, es) => ⟨l2, es, false⟩
  else if 50 ≤ ch ∧ ch ≤ 57 then
    match scan_error l ("Illegal binary digit " ++ strOf [ch]) with
    | (l2, es) => ⟨l2, es, false⟩
  else
    match emit_int cb l l.int_value with
    | ⟨l2, es, true⟩ => ⟨set_state l2 .SCAN_EXPR, es, true⟩
    | ⟨l2, es, false⟩ => ⟨l2, es, true⟩

/-- `case SCAN_OCTAL`. -/
def step_octal (cb : Callbacks) (l : GCodeLexer) (ch : Nat) : StepOut :=
  if 48 ≤ ch ∧ ch ≤ 55 then
    match add_digit l ((ch : Int) - 48) 8 int64_max
        "Octal literal exceeds maximum value" with
    | ⟨l2, es, _⟩ => ⟨l2, es, false⟩
  else if ch = 46 then
    match scan_error l "Fractional octal literals not allowed" with
    | (l2, es) => ⟨l2, es, false⟩
  else if ch = 56 ∨ ch = 57 then
    match scan_error l ("Illegal octal digit " ++ strOf [ch]) with
    | (l2, es) => ⟨l2, es, false⟩
  else
    match emit_int cb l l.int_value with
    | ⟨l2, es, true⟩ => ⟨set_state l2 .SCAN_EXPR, es, true⟩
    | ⟨l2, es, false⟩ => ⟨l2, es, true⟩

/-- `case SCAN_DOT`. -/
def step_dot (cb : Callbacks) (l : GCodeLexer) (ch : Nat) : StepOut :=
  if 48 ≤ ch ∧ ch ≤ 57 then
    ⟨set_state (token_char l ch) .SCAN_DECIMAL_FRACTION, [], false⟩
  else
    match emit_symbol cb l with
    | ⟨l2, es, true⟩ => ⟨set_state l2 .SCAN_EXPR, es, true⟩
    | ⟨l2, es, false⟩ => ⟨l2, es, false⟩

/-- `case SCAN_DECIMAL_FLOAT`. -/
def step_decimal_float (cb : Callbacks) (l : GCodeLexer) (ch : Nat) :
    StepOut :=
  if ch = 46 then
    ⟨set_state (token_char l ch) .SCAN_DECIMAL_FRACTION, [], false⟩
  else if ch = 101 ∨ ch = 69 then
    ⟨set_state (token_char l ch) .SCAN_DECIMAL_EXPONENT_SIGN,
     [], false⟩
  else if 48 ≤ ch ∧ ch ≤ 57 then ⟨token_char l ch, [], false⟩
  else
    match emit_float cb l with
    | ⟨l2, es, true⟩ => ⟨set_state l2 .SCAN_EXPR, es, true⟩
    | ⟨l2, es, false⟩ => ⟨l2, es, true⟩

/-- `case SCAN_DECIMAL_FRACTION`. -/
def step_decimal_fraction (cb : Callbacks) (l : GCodeLexer) (ch : Nat) :
    StepOut :=
  if ch = 101 ∨ ch = 69 then
    ⟨set_state (token_char l ch) .SCAN_DECIMAL_EXPONENT_SIGN,
     [], false⟩
  else if 48 ≤ ch ∧ ch ≤ 57 then ⟨token_char l ch, [], false⟩
  else
    match emit_float cb l with
    | ⟨l2, es, true⟩ => ⟨set_state l2 .SCAN_EXPR, es, true⟩
    | ⟨l2, es, false⟩ => ⟨l2, es, true⟩

/-- `case SCAN_DECIMAL_EXPONENT_SIGN`. -/
def step_decimal_exponent_sign (l : GCodeLexer) (ch : Nat) : StepOut :=
  if ch = 45 then
    ⟨set_state (token_char l 45) .SCAN_DECIMAL_EXPONENT, [], false⟩
  else ⟨set_state l .SCAN_DECIMAL_EXPONENT, [], true⟩

/-- `case SCAN_DECIMAL_EXPONENT`. -/
def step_decimal_exponent (cb : Callbacks) (l : GCodeLexer) (ch : Nat) :
    StepOut :=
  if 48 ≤ ch ∧ ch ≤ 57 then ⟨token_char l ch, [], false⟩
  else if l.digit_count = 0 then
    match scan_error (free_token l)
        "No digits after decimal exponent delimiter" with
    | (l2, es) => ⟨l2, es, false⟩
  else
    match emit_float cb l with
    | ⟨l2, es, true⟩ => ⟨set_state l2 .SCAN_EXPR, es, true⟩
    | ⟨l2, es, false⟩ => ⟨l2, es, true⟩

/-- `case SCAN_HEX_FLOAT`. -/
def step_hex_float (cb : Callbacks) (l : GCodeLexer) (ch : Nat) : StepOut :=
  if ch = 46 then
    ⟨set_state (token_char l ch) .SCAN_HEX_FRACTION, [], false⟩
  else if ch = 112 ∨ ch = 80 then
    ⟨set_state (token_char l ch) .SCAN_HEX_EXPONENT_SIGN, [], false⟩
  else if hex_digit_to_int ch ≠ -1 then ⟨token_char l ch, [], false⟩
  else
    match emit_float cb l with
    | ⟨l2, es, true⟩ => ⟨set_state l2 .SCAN_EXPR, es, true⟩
    | ⟨l2, es, false⟩ => ⟨l2, es, true⟩

/-- `case SCAN_HEX_FRACTION`. -/
def step_hex_fraction (cb : Callbacks) (l : GCodeLexer) (ch : Nat) :
    StepOut :=
  if ch = 112 ∨ ch = 80 then
    ⟨set_state (token_char l ch) .SCAN_HEX_EXPONENT_SIGN, [], false⟩
  else if hex_digit_to_int ch ≠ -1 then ⟨token_char l ch, [], false⟩
  else
    match emit_float cb l with
    | ⟨l2, es, true⟩ => ⟨set_state l2 .SCAN_EXPR, es, true⟩
    | ⟨l2, es, false⟩ => ⟨l2, es, true⟩

/-- `case SCAN_HEX_EXPONENT_SIGN`. -/
def step_hex_exponent_sign (l : GCodeLexer) (ch : Nat) : StepOut :=
  if ch = 45 then
    ⟨set_state (token_char l 45) .SCAN_HEX_EXPONENT, [], false⟩
  else ⟨set_state l .SCAN_HEX_EXPONENT, [], true⟩

/-- `case SCAN_HEX_EXPONENT` (note the state is set to `SCAN_EXPR`
unconditionally after `emit_float`). -/
def step_hex_exponent (cb : Callbacks) (l : GCodeLexer) (ch : Nat) :
    StepOut :=
  if hex_digit_to_int ch ≠ -1 then ⟨token_char l ch, [], false⟩
  else if l.digit_count = 0 then
    match scan_error (free_token l)
        "No digits after hex exponent delimiter" with
    | (l2, es) => ⟨l2, es, false⟩
  else
    match emit_float cb l with
    | ⟨l2, es, _⟩ => ⟨set_state l2 .SCAN_EXPR, es, true⟩

/-- The monster switch of `gcode_lexer_scan`, for a single dispatch of one
byte (the `BACK_UP` re-dispatch is the `backup` flag). -/
def process1 (cb : Callbacks) (l : GCodeLexer) (ch : Nat) : StepOut :=
  match l.state with
  | .SCAN_NEWLINE => step_newline l ch
  | .SCAN_ERROR => step_error_state l ch
  | .SCAN_LINENO => step_lineno l ch
  | .SCAN_AFTER_LINENO => step_after_lineno l ch
  | .SCAN_COMMAND_NAME => step_command_name cb l ch
  | .SCAN_ARGS => step_args cb l ch
  | .SCAN_EXTENDED_KEY => step_extended_key cb l ch
  | .SCAN_AFTER_EXTENDED_KEY => step_after_extended_key cb l ch
  | .SCAN_AFTER_EXTENDED_SEPARATOR => step_after_extended_separator cb l ch
  | .SCAN_AFTER_TRADITIONAL_KEY => step_after_traditional_key cb l ch
  | .SCAN_ARG_VALUE => step_arg_value cb l ch
  | .SCAN_COMMENT => step_comment cb l ch
  | .SCAN_EMPTY_LINE_COMMENT => step_empty_line_comment l ch
  | .SCAN_EXPR => step_expr cb l ch
  | .SCAN_AFTER_EXPR => step_after_expr cb l ch
  | .SCAN_SYMBOL => step_symbol cb l ch
  | .SCAN_IDENTIFIER => step_identifier cb l ch
  | .SCAN_STR => step_str cb l ch
  | .SCAN_STR_ESCAPE => step_str_escape l ch
  | .SCAN_STR_OCTAL => step_str_octal l ch
  | .SCAN_STR_HEX => step_str_hex l ch
  | .SCAN_STR_LOW_UNICODE => step_str_low_unicode l ch
  | .SCAN_STR_HIGH_UNICODE => step_str_high_unicode l ch
  | .SCAN_NUMBER_BASE => step_number_base cb l ch
  | .SCAN_DECIMAL => step_decimal cb l ch
  | .SCAN_HEX => step_hex cb l ch
  | .SCAN_BINARY => step_binary cb l ch
  | .SCAN_OCTAL => step_octal cb l ch
  | .SCAN_DOT => step_dot cb l ch
  | .SCAN_DECIMAL_FLOAT => step_decimal_float cb l ch
  | .SCAN_DECIMAL_FRACTION => step_decimal_fraction cb l ch
  | .SCAN_DECIMAL_EXPONENT_SIGN => step_decimal_exponent_sign l ch
  | .SCAN_DECIMAL_EXPONENT => step_decimal_exponent cb l ch
  | .SCAN_HEX_FLOAT => step_hex_float cb l ch
  | .SCAN_HEX_FRACTION => step_hex_fraction cb l ch
  | .SCAN_HEX_EXPONENT_SIGN => step_hex_exponent_sign l ch
  | .SCAN_HEX_EXPONENT => step_hex_exponent cb l ch

-- ------------------------------------------------------------------
-- The scan driver
-- ------------------------------------------------------------------

/-- A bound on the `BACK_UP` chains of `process1`: every `BACK_UP`
re-dispatch moves to a state of strictly smaller rank (proved in
`process1_rank` below), so a chain starting in state `s` performs at most
`stateRank s + 1` dispatches. -/
def stateRank : State → Nat
  | .SCAN_NEWLINE => 1
  | .SCAN_AFTER_LINENO => 1
  | .SCAN_AFTER_EXTENDED_SEPARATOR => 1
  | .SCAN_AFTER_TRADITIONAL_KEY => 1
  | .SCAN_AFTER_EXPR => 2
  | .SCAN_SYMBOL => 1
  | .SCAN_IDENTIFIER => 1
  | .SCAN_DOT => 1
  | .SCAN_STR_ESCAPE => 2
  | .SCAN_STR_OCTAL => 1
  | .SCAN_STR_HEX => 1
  | .SCAN_NUMBER_BASE => 2
  | .SCAN_DECIMAL => 1
  | .SCAN_HEX => 1
  | .SCAN_BINARY => 1
  | .SCAN_OCTAL => 1
  | .SCAN_DECIMAL_FLOAT => 1
  | .SCAN_DECIMAL_FRACTION => 1
  | .SCAN_DECIMAL_EXPONENT_SIGN => 2
  | .SCAN_DECIMAL_EXPONENT => 1
  | .SCAN_HEX_FLOAT => 1
  | .SCAN_HEX_FRACTION => 1
  | .SCAN_HEX_EXPONENT_SIGN => 2
  | .SCAN_HEX_EXPONENT => 1
  | _ => 0

/-- The end-of-iteration position update of `gcode_lexer_scan` for a
backed-up byte: `BACK_UP` zeroes `ch`, so the column is incremented. -/
def bump_column (l : GCodeLexer) : GCodeLexer :=
  { l with column := l.column + 1 }

/-- The end-of-iteration position update for a consumed byte. -/
def advance_pos (l : GCodeLexer) (ch : Nat) : GCodeLexer :=
  if ch = 10 then { l with line := l.line + 1, column := 1 }
  else bump_column l

/-- The per-byte loop body of `gcode_lexer_scan`, with explicit dispatch
fuel (`scan_byte_go_stable` below shows any fuel above `stateRank` gives
the same result, i.e. the fuel is never exhausted). -/
def scan_byte_go (cb : Callbacks) : Nat → GCodeLexer → Nat →
    GCodeLexer × List Emission
  | 0, l, _ => (l, [])
  | fuel + 1, l, ch =>
    if (process1 cb l ch).backup then
      ((scan_byte_go cb fuel (bump_column (process1 cb l ch).lexer) ch).1,
       (process1 cb l ch).out ++
         (scan_byte_go cb fuel (bump_column (process1 cb l ch).lexer) ch).2)
    else (advance_pos (process1 cb l ch).lexer ch, (process1 cb l ch).out)

/-- Processing of one input byte, including its `BACK_UP` re-dispatches. -/
def scan_byte (cb : Callbacks) (l : GCodeLexer) (ch : Nat) :
    GCodeLexer × List Emission :=
  scan_byte_go cb (stateRank l.state + 1) l ch

/-- `gcode_lexer_scan`: consume a buffer byte by byte. -/
def gcode_lexer_scan (cb : Callbacks) : GCodeLexer → List Nat →
    GCodeLexer × List Emission
  | l, [] => (l, [])
  | l, ch :: rest =>
    let r1 := scan_byte cb l ch
    let r2 := gcode_lexer_scan cb r1.1 rest
    (r2.1, r1.2 ++ r2.2)

/-- Feeding a sequence of chunks to `gcode_lexer_scan`, one call per
chunk. -/
def scan_chunks (cb : Callbacks) : GCodeLexer → List (List Nat) →
    GCodeLexer × List Emission
  | l, [] => (l, [])
  | l, c :: cs =>
    let r1 := gcode_lexer_scan cb l c
    let r2 := scan_chunks cb r1.1 cs
    (r2.1, r1.2 ++ r2.2)

/-- `gcode_lexer_reset`. -/
def gcode_lexer_reset (l : GCodeLexer) : GCodeLexer :=
  { l with state := .SCAN_NEWLINE, token := [], line := 1, column := 1 }

/-- The fields of `struct GCodeLexer` that `gcode_lexer_new` never
initialises (they hold indeterminate malloc contents in a fresh lexer, and
stale values after a reset). -/
structure ScratchFields where
  expr_nesting : Nat
  int_value : Int
  digit_count : Int
  arg_mode : ArgMode
  after_str : State
  in_arg_value : Bool
  deriving DecidableEq, Repr

/-- `gcode_lexer_new`: sets the pointers and buffers and calls
`gcode_lexer_reset`; the `ScratchFields` argument models the indeterminate
contents of the un-initialised fields. -/
def gcode_lexer_new (g : ScratchFields) (location : Option GCodeLocation) :
    GCodeLexer :=
  gcode_lexer_reset
    { state := .SCAN_NEWLINE, token := [], expr_nesting := g.expr_nesting,
      int_value := g.int_value, digit_count := g.digit_count,
      line := 1, column := 1, arg_mode := g.arg_mode,
      after_str := g.after_str, in_arg_value := g.in_arg_value,
      location := location }

/-- All-zero scratch contents, for a canonical fresh lexer. -/
def scratch0 : ScratchFields :=
  ⟨0, 0, 0, .ARG_EXTENDED, .SCAN_NEWLINE, false⟩

/-- A canonical fresh lexer (no location slot). -/
def init0 : GCodeLexer := gcode_lexer_new scratch0 none

/-- The scratch fields currently held by a lexer. -/
def scratch_of (l : GCodeLexer) : ScratchFields :=
  ⟨l.expr_nesting, l.int_value, l.digit_count, l.arg_mode, l.after_str,
   l.in_arg_value⟩

-- ------------------------------------------------------------------
-- Fidelity of the dispatch fuel: BACK_UP chains strictly decrease
-- `stateRank`, so `scan_byte`'s fuel never runs out.
-- ------------------------------------------------------------------

theorem emit_int_err_aux (cb : Callbacks) (l : GCodeLexer) (v : Int) :
    (emit_int cb l v).ok = false →
    (emit_int cb l v).lexer.state = .SCAN_ERROR := by
  unfold emit_int
  dsimp only
  split
  · intro h; cases h
  · intro _; rfl

theorem emit_int_err (cb : Callbacks) (l : GCodeLexer) (v : Int)
    (l2 : GCodeLexer) (es : List Emission)
    (h : emit_int cb l v = ⟨l2, es, false⟩) : l2.state = .SCAN_ERROR := by
  have h2 := emit_int_err_aux cb l v (by rw [h])
  rw [h] at h2
  exact h2

theorem emit_float_err_aux (cb : Callbacks) (l : GCodeLexer) :
    (emit_float cb l).ok = false →
    (emit_float cb l).lexer.state = .SCAN_ERROR := by
  unfold emit_float
  dsimp only
  split
  · intro _; rfl
  · split
    · intro h; cases h
    · intro _; rfl

theorem emit_float_err (cb : Callbacks) (l : GCodeLexer)
    (l2 : GCodeLexer) (es : List Emission)
    (h : emit_float cb l = ⟨l2, es, false⟩) : l2.state = .SCAN_ERROR := by
  have h2 := emit_float_err_aux cb l (by rw [h])
  rw [h] at h2
  exact h2

theorem emit_symbol_err_aux (cb : Callbacks) (l : GCodeLexer) :
    (emit_symbol cb l).ok = false →
    (emit_symbol cb l).lexer.state = .SCAN_ERROR := by
  unfold emit_symbol
  dsimp only
  split
  · intro h; cases h
  · intro _; rfl

theorem emit_symbol_err (cb : Callbacks) (l : GCodeLexer)
    (l2 : GCodeLexer) (es : List Emission)
    (h : emit_symbol cb l = ⟨l2, es, false⟩) : l2.state = .SCAN_ERROR := by
  have h2 := emit_symbol_err_aux cb l (by rw [h])
  rw [h] at h2
  exact h2

theorem step_error_state_nb (l : GCodeLexer) (ch : Nat) :
    (step_error_state l ch).backup = false := by
  unfold step_error_state; (repeat' split) <;> rfl

theorem step_lineno_nb (l : GCodeLexer) (ch : Nat) :
    (step_lineno l ch).backup = false := by
  unfold step_lineno; (repeat' split) <;> rfl

theorem step_command_name_nb (cb : Callbacks) (l : GCodeLexer) (ch : Nat) :
    (step_command_name cb l ch).backup = false := by
  unfold step_command_name; (repeat' split) <;> rfl

theorem step_args_nb (cb : Callbacks) (l : GCodeLexer) (ch : Nat) :
    (step_args cb l ch).backup = false := by
  unfold step_args; (repeat' split) <;> rfl

theorem step_extended_key_nb (cb : Callbacks) (l : GCodeLexer) (ch : Nat) :
    (step_extended_key cb l ch).backup = false := by
  unfold step_extended_key; (repeat' split) <;> rfl

theorem step_after_extended_key_nb (cb : Callbacks) (l : GCodeLexer)
    (ch : Nat) : (step_after_extended_key cb l ch).backup = false := by
  unfold step_after_extended_key; (repeat' split) <;> rfl

theorem step_arg_value_nb (cb : Callbacks) (l : GCodeLexer) (ch : Nat) :
    (step_arg_value cb l ch).backup = false := by
  unfold step_arg_value; (repeat' split) <;> rfl

theorem step_comment_nb (cb : Callbacks) (l : GCodeLexer) (ch : Nat) :
    (step_comment cb l ch).backup = false := by
  unfold step_comment; (repeat' split) <;> rfl

theorem step_empty_line_comment_nb (l : GCodeLexer) (ch : Nat) :
    (step_empty_line_comment l ch).backup = false := by
  unfold step_empty_line_comment; (repeat' split) <;> rfl

theorem step_expr_nb (cb : Callbacks) (l : GCodeLexer) (ch : Nat) :
    (step_expr cb l ch).backup = false := by
  unfold step_expr
  by_cases h1 : ch = 10
  · rw [if_pos h1]
  rw [if_neg h1]
  by_cases h2 : is_blank ch = true
  · rw [if_pos h2]
  rw [if_neg h2]
  by_cases h3 : ch = 40
  · rw [if_pos h3]
  rw [if_neg h3]
  by_cases h4 : ch = 41
  · rw [if_pos h4]; (repeat' split) <;> rfl
  rw [if_neg h4]
  by_cases h5 : ch = 125
  · rw [if_pos h5]; (repeat' split) <;> rfl
  rw [if_neg h5]
  (repeat' split) <;> rfl

theorem step_str_nb (cb : Callbacks) (l : GCodeLexer) (ch : Nat) :
    (step_str cb l ch).backup = false := by
  unfold step_str; (repeat' split) <;> rfl

theorem step_str_low_unicode_nb (l : GCodeLexer) (ch : Nat) :
    (step_str_low_unicode l ch).backup = false := by
  unfold step_str_low_unicode; (repeat' split) <;> rfl

theorem step_str_high_unicode_nb (l : GCodeLexer) (ch : Nat) :
    (step_str_high_unicode l ch).backup = false := by
  unfold step_str_high_unicode; (repeat' split) <;> rfl

theorem step_newline_rank (l : GCodeLexer) (ch : Nat) :
    (step_newline l ch).backup = true →
    stateRank (step_newline l ch).lexer.state < stateRank .SCAN_NEWLINE := by
  unfold step_newline
  (repeat' split) <;> intro h <;>
    first
      | (simp at h <;> exact h.elim)
      | (simp [stateRank, set_state, set_in_arg_value, set_expr_nesting,
               set_int_value, set_digit_count]
         done)
      | (rename_i l2 es heq
         simp [emit_int_err _ _ _ _ _ heq, stateRank])
      | (rename_i l2 es heq
         simp [emit_float_err _ _ _ _ heq, stateRank])
      | (rename_i l2 es heq
         simp [emit_symbol_err _ _ _ _ heq, stateRank])

theorem step_after_lineno_rank (l : GCodeLexer) (ch : Nat) :
    (step_after_lineno l ch).backup = true →
    stateRank (step_after_lineno l ch).lexer.state < stateRank .SCAN_AFTER_LINENO := by
  unfold step_after_lineno
  (repeat' split) <;> intro h <;>
    first
      | (simp at h <;> exact h.elim)
      | (simp [stateRank, set_state, set_in_arg_value, set_expr_nesting,
               set_int_value, set_digit_count]
         done)
      | (rename_i l2 es heq
         simp [emit_int_err _ _ _ _ _ heq, stateRank])
      | (rename_i l2 es heq
         simp [emit_float_err _ _ _ _ heq, stateRank])
      | (rename_i l2 es heq
         simp [emit_symbol_err _ _ _ _ heq, stateRank])

theorem step_after_extended_separator_rank (cb : Callbacks) (l : GCodeLexer) (ch : Nat) :
    (step_after_extended_separator cb l ch).backup = true →
    stateRank (step_after_extended_separator cb l ch).lexer.state < stateRank .SCAN_AFTER_EXTENDED_SEPARATOR := by
  unfold step_after_extended_separator
  (repeat' split) <;> intro h <;>
    first
      | (simp at h <;> exact h.elim)
      | (simp [stateRank, set_state, set_in_arg_value, set_expr_nesting,
               set_int_value, set_digit_count]
         done)
      | (rename_i l2 es heq
         simp [emit_int_err _ _ _ _ _ heq, stateRank])
      | (rename_i l2 es heq
         simp [emit_float_err _ _ _ _ heq, stateRank])
      | (rename_i l2 es heq
         simp [emit_symbol_err _ _ _ _ heq, stateRank])

theorem step_after_traditional_key_rank (cb : Callbacks) (l : GCodeLexer) (ch : Nat) :
    (step_after_traditional_key cb l ch).backup = true →
    stateRank (step_after_traditional_key cb l ch).lexer.state < stateRank .SCAN_AFTER_TRADITIONAL_KEY := by
  unfold step_after_traditional_key
  (repeat' split) <;> intro h <;>
    first
      | (simp at h <;> exact h.elim)
      | (simp [stateRank, set_state, set_in_arg_value, set_expr_nesting,
               set_int_value, set_digit_count]
         done)
      | (rename_i l2 es heq
         simp [emit_int_err _ _ _ _ _ heq, stateRank])
      | (rename_i l2 es heq
         simp [emit_float_err _ _ _ _ heq, stateRank])
      | (rename_i l2 es heq
         simp [emit_symbol_err _ _ _ _ heq, stateRank])

theorem step_after_expr_rank (cb : Callbacks) (l : GCodeLexer) (ch : Nat) :
    (step_after_expr cb l ch).backup = true →
    stateRank (step_after_expr cb l ch).lexer.state < stateRank .SCAN_AFTER_EXPR := by
  unfold step_after_expr
  (repeat' split) <;> intro h <;>
    first
      | (simp at h <;> exact h.elim)
      | (simp [stateRank, set_state, set_in_arg_value, set_expr_nesting,
               set_int_value, set_digit_count]
         done)
      | (rename_i l2 es heq
         simp [emit_int_err _ _ _ _ _ heq, stateRank])
      | (rename_i l2 es heq
         simp [emit_float_err _ _ _ _ heq, stateRank])
      | (rename_i l2 es heq
         simp [emit_symbol_err _ _ _ _ heq, stateRank])

theorem step_symbol_rank (cb : Callbacks) (l : GCodeLexer) (ch : Nat) :
    (step_symbol cb l ch).backup = true →
    stateRank (step_symbol cb l ch).lexer.state < stateRank .SCAN_SYMBOL := by
  unfold step_symbol
  (repeat' split) <;> intro h <;>
    first
      | (simp at h <;> exact h.elim)
      | (simp [stateRank, set_state, set_in_arg_value, set_expr_nesting,
               set_int_value, set_digit_count]
         done)
      | (rename_i l2 es heq
         simp [emit_int_err _ _ _ _ _ heq, stateRank])
      | (rename_i l2 es heq
         simp [emit_float_err _ _ _ _ heq, stateRank])
      | (rename_i l2 es heq
         simp [emit_symbol_err _ _ _ _ heq, stateRank])

theorem step_identifier_rank (cb : Callbacks) (l : GCodeLexer) (ch : Nat) :
    (step_identifier cb l ch).backup = true →
    stateRank (step_identifier cb l ch).lexer.state < stateRank .SCAN_IDENTIFIER := by
  unfold step_identifier
  (repeat' split) <;> intro h <;>
    first
      | (simp at h <;> exact h.elim)
      | (simp [stateRank, set_state, set_in_arg_value, set_expr_nesting,
               set_int_value, set_digit_count]
         done)
      | (rename_i l2 es heq
         simp [emit_int_err _ _ _ _ _ heq, stateRank])
      | (rename_i l2 es heq
         simp [emit_float_err _ _ _ _ heq, stateRank])
      | (rename_i l2 es heq
         simp [emit_symbol_err _ _ _ _ heq, stateRank])

theorem step_str_escape_rank (l : GCodeLexer) (ch : Nat) :
    (step_str_escape l ch).backup = true →
    stateRank (step_str_escape l ch).lexer.state < stateRank .SCAN_STR_ESCAPE := by
  unfold step_str_escape
  by_cases h1 : ch = 97
  · rw [if_pos h1]; intro h; cases h
  rw [if_neg h1]
  by_cases h2 : ch = 98
  · rw [if_pos h2]; intro h; cases h
  rw [if_neg h2]
  by_cases h3 : ch = 101
  · rw [if_pos h3]; intro h; cases h
  rw [if_neg h3]
  by_cases h4 : ch = 102
  · rw [if_pos h4]; intro h; cases h
  rw [if_neg h4]
  by_cases h5 : ch = 110
  · rw [if_pos h5]; intro h; cases h
  rw [if_neg h5]
  by_cases h6 : ch = 114
  · rw [if_pos h6]; intro h; cases h
  rw [if_neg h6]
  by_cases h7 : ch = 116
  · rw [if_pos h7]; intro h; cases h
  rw [if_neg h7]
  by_cases h8 : ch = 118
  · rw [if_pos h8]; intro h; cases h
  rw [if_neg h8]
  by_cases h9 : ch = 92
  · rw [if_pos h9]; intro h; cases h
  rw [if_neg h9]
  by_cases h10 : ch = 39
  · rw [if_pos h10]; intro h; cases h
  rw [if_neg h10]
  by_cases h11 : ch = 34
  · rw [if_pos h11]; intro h; cases h
  rw [if_neg h11]
  by_cases h12 : ch = 63
  · rw [if_pos h12]; intro h; cases h
  rw [if_neg h12]
  by_cases h13 : ch = 120
  · rw [if_pos h13]; intro h; cases h
  rw [if_neg h13]
  by_cases h14 : ch = 117
  · rw [if_pos h14]; intro h; cases h
  rw [if_neg h14]
  by_cases h15 : ch = 85
  · rw [if_pos h15]; intro h; cases h
  rw [if_neg h15]
  by_cases h16 : ch = 10
  · rw [if_pos h16]; intro h; cases h
  rw [if_neg h16]
  by_cases h17 : 48 ≤ ch ∧ ch ≤ 57
  · rw [if_pos h17]
    intro _
    simp [stateRank, set_state, set_int_value, set_digit_count]
  rw [if_neg h17]
  intro h
  simp [scan_error] at h

theorem step_str_octal_rank (l : GCodeLexer) (ch : Nat) :
    (step_str_octal l ch).backup = true →
    stateRank (step_str_octal l ch).lexer.state < stateRank .SCAN_STR_OCTAL := by
  unfold step_str_octal
  (repeat' split) <;> intro h <;>
    first
      | (simp at h <;> exact h.elim)
      | (simp [stateRank, set_state, set_in_arg_value, set_expr_nesting,
               set_int_value, set_digit_count]
         done)
      | (rename_i l2 es heq
         simp [emit_int_err _ _ _ _ _ heq, stateRank])
      | (rename_i l2 es heq
         simp [emit_float_err _ _ _ _ heq, stateRank])
      | (rename_i l2 es heq
         simp [emit_symbol_err _ _ _ _ heq, stateRank])

theorem step_str_hex_rank (l : GCodeLexer) (ch : Nat) :
    (step_str_hex l ch).backup = true →
    stateRank (step_str_hex l ch).lexer.state < stateRank .SCAN_STR_HEX := by
  unfold step_str_hex
  (repeat' split) <;> intro h <;>
    first
      | (simp at h <;> exact h.elim)
      | (simp [stateRank, set_state, set_in_arg_value, set_expr_nesting,
               set_int_value, set_digit_count]
         done)
      | (rename_i l2 es heq
         simp [emit_int_err _ _ _ _ _ heq, stateRank])
      | (rename_i l2 es heq
         simp [emit_float_err _ _ _ _ heq, stateRank])
      | (rename_i l2 es heq
         simp [emit_symbol_err _ _ _ _ heq, stateRank])

theorem step_number_base_rank (cb : Callbacks) (l : GCodeLexer) (ch : Nat) :
    (step_number_base cb l ch).backup = true →
    stateRank (step_number_base cb l ch).lexer.state < stateRank .SCAN_NUMBER_BASE := by
  unfold step_number_base
  (repeat' split) <;> intro h <;>
    first
      | (simp at h <;> exact h.elim)
      | (simp [stateRank, set_state, set_in_arg_value, set_expr_nesting,
               set_int_value, set_digit_count]
         done)
      | (rename_i l2 es heq
         simp [emit_int_err _ _ _ _ _ heq, stateRank])
      | (rename_i l2 es heq
         simp [emit_float_err _ _ _ _ heq, stateRank])
      | (rename_i l2 es heq
         simp [emit_symbol_err _ _ _ _ heq, stateRank])

theorem step_decimal_rank (cb : Callbacks) (l : GCodeLexer) (ch : Nat) :
    (step_decimal cb l ch).backup = true →
    stateRank (step_decimal cb l ch).lexer.state < stateRank .SCAN_DECIMAL := by
  unfold step_decimal
  (repeat' split) <;> intro h <;>
    first
      | (simp at h <;> exact h.elim)
      | (simp [stateRank, set_state, set_in_arg_value, set_expr_nesting,
               set_int_value, set_digit_count]
         done)
      | (rename_i l2 es heq
         simp [emit_int_err _ _ _ _ _ heq, stateRank])
      | (rename_i l2 es heq
         simp [emit_float_err _ _ _ _ heq, stateRank])
      | (rename_i l2 es heq
         simp [emit_symbol_err _ _ _ _ heq, stateRank])

theorem step_hex_rank (cb : Callbacks) (l : GCodeLexer) (ch : Nat) :
    (step_hex cb l ch).backup = true →
    stateRank (step_hex cb l ch).lexer.state < stateRank .SCAN_HEX := by
  unfold step_hex
  (repeat' split) <;> intro h <;>
    first
      | (simp at h <;> exact h.elim)
      | (simp [stateRank, set_state, set_in_arg_value, set_expr_nesting,
               set_int_value, set_digit_count]
         done)
      | (rename_i l2 es heq
         simp [emit_int_err _ _ _ _ _ heq, stateRank])
      | (rename_i l2 es heq
         simp [emit_float_err _ _ _ _ heq, stateRank])
      | (rename_i l2 es heq
         simp [emit_symbol_err _ _ _ _ heq, stateRank])

theorem step_binary_rank (cb : Callbacks) (l : GCodeLexer) (ch : Nat) :
    (step_binary cb l ch).backup = true →
    stateRank (step_binary cb l ch).lexer.state < stateRank .SCAN_BINARY := by
  unfold step_binary
  (repeat' split) <;> intro h <;>
    first
      | (simp at h <;> exact h.elim)
      | (simp [stateRank, set_state, set_in_arg_value, set_expr_nesting,
               set_int_value, set_digit_count]
         done)
      | (rename_i l2 es heq
         simp [emit_int_err _ _ _ _ _ heq, stateRank])
      | (rename_i l2 es heq
         simp [emit_float_err _ _ _ _ heq, stateRank])
      | (rename_i l2 es heq
         simp [emit_symbol_err _ _ _ _ heq, stateRank])

theorem step_octal_rank (cb : Callbacks) (l : GCodeLexer) (ch : Nat) :
    (step_octal cb l ch).backup = true →
    stateRank (step_octal cb l ch).lexer.state < stateRank .SCAN_OCTAL := by
  unfold step_octal
  (repeat' split) <;> intro h <;>
    first
      | (simp at h <;> exact h.elim)
      | (simp [stateRank, set_state, set_in_arg_value, set_expr_nesting,
               set_int_value, set_digit_count]
         done)
      | (rename_i l2 es heq
         simp [emit_int_err _ _ _ _ _ heq, stateRank])
      | (rename_i l2 es heq
         simp [emit_float_err _ _ _ _ heq, stateRank])
      | (rename_i l2 es heq
         simp [emit_symbol_err _ _ _ _ heq, stateRank])

theorem step_dot_rank (cb : Callbacks) (l : GCodeLexer) (ch : Nat) :
    (step_dot cb l ch).backup = true →
    stateRank (step_dot cb l ch).lexer.state < stateRank .SCAN_DOT := by
  unfold step_dot
  (repeat' split) <;> intro h <;>
    first
      | (simp at h <;> exact h.elim)
      | (simp [stateRank, set_state, set_in_arg_value, set_expr_nesting,
               set_int_value, set_digit_count]
         done)
      | (rename_i l2 es heq
         simp [emit_int_err _ _ _ _ _ heq, stateRank])
      | (rename_i l2 es heq
         simp [emit_float_err _ _ _ _ heq, stateRank])
      | (rename_i l2 es heq
         simp [emit_symbol_err _ _ _ _ heq, stateRank])

theorem step_decimal_float_rank (cb : Callbacks) (l : GCodeLexer) (ch : Nat) :
    (step_decimal_float cb l ch).backup = true →
    stateRank (step_decimal_float cb l ch).lexer.state < stateRank .SCAN_DECIMAL_FLOAT := by
  unfold step_decimal_float
  (repeat' split) <;> intro h <;>
    first
      | (simp at h <;> exact h.elim)
      | (simp [stateRank, set_state, set_in_arg_value, set_expr_nesting,
               set_int_value, set_digit_count]
         done)
      | (rename_i l2 es heq
         simp [emit_int_err _ _ _ _ _ heq, stateRank])
      | (rename_i l2 es heq
         simp [emit_float_err _ _ _ _ heq, stateRank])
      | (rename_i l2 es heq
         simp [emit_symbol_err _ _ _ _ heq, stateRank])

theorem step_decimal_fraction_rank (cb : Callbacks) (l : GCodeLexer) (ch : Nat) :
    (step_decimal_fraction cb l ch).backup = true →
    stateRank (step_decimal_fraction cb l ch).lexer.state < stateRank .SCAN_DECIMAL_FRACTION := by
  unfold step_decimal_fraction
  (repeat' split) <;> intro h <;>
    first
      | (simp at h <;> exact h.elim)
      | (simp [stateRank, set_state, set_in_arg_value, set_expr_nesting,
               set_int_value, set_digit_count]
         done)
      | (rename_i l2 es heq
         simp [emit_int_err _ _ _ _ _ heq, stateRank])
      | (rename_i l2 es heq
         simp [emit_float_err _ _ _ _ heq, stateRank])
      | (rename_i l2 es heq
         simp [emit_symbol_err _ _ _ _ heq, stateRank])

theorem step_decimal_exponent_sign_rank (l : GCodeLexer) (ch : Nat) :
    (step_decimal_exponent_sign l ch).backup = true →
    stateRank (step_decimal_exponent_sign l ch).lexer.state < stateRank .SCAN_DECIMAL_EXPONENT_SIGN := by
  unfold step_decimal_exponent_sign
  (repeat' split) <;> intro h <;>
    first
      | (simp at h <;> exact h.elim)
      | (simp [stateRank, set_state, set_in_arg_value, set_expr_nesting,
               set_int_value, set_digit_count]
         done)
      | (rename_i l2 es heq
         simp [emit_int_err _ _ _ _ _ heq, stateRank])
      | (rename_i l2 es heq
         simp [emit_float_err _ _ _ _ heq, stateRank])
      | (rename_i l2 es heq
         simp [emit_symbol_err _ _ _ _ heq, stateRank])

theorem step_decimal_exponent_rank (cb : Callbacks) (l : GCodeLexer) (ch : Nat) :
    (step_decimal_exponent cb l ch).backup = true →
    stateRank (step_decimal_exponent cb l ch).lexer.state < stateRank .SCAN_DECIMAL_EXPONENT := by
  unfold step_decimal_exponent
  (repeat' split) <;> intro h <;>
    first
      | (simp at h <;> exact h.elim)
      | (simp [stateRank, set_state, set_in_arg_value, set_expr_nesting,
               set_int_value, set_digit_count]
         done)
      | (rename_i l2 es heq
         simp [emit_int_err _ _ _ _ _ heq, stateRank])
      | (rename_i l2 es heq
         simp [emit_float_err _ _ _ _ heq, stateRank])
      | (rename_i l2 es heq
         simp [emit_symbol_err _ _ _ _ heq, stateRank])

theorem step_hex_float_rank (cb : Callbacks) (l : GCodeLexer) (ch : Nat) :
    (step_hex_float cb l ch).backup = true →
    stateRank (step_hex_float cb l ch).lexer.state < stateRank .SCAN_HEX_FLOAT := by
  unfold step_hex_float
  (repeat' split) <;> intro h <;>
    first
      | (simp at h <;> exact h.elim)
      | (simp [stateRank, set_state, set_in_arg_value, set_expr_nesting,
               set_int_value, set_digit_count]
         done)
      | (rename_i l2 es heq
         simp [emit_int_err _ _ _ _ _ heq, stateRank])
      | (rename_i l2 es heq
         simp [emit_float_err _ _ _ _ heq, stateRank])
      | (rename_i l2 es heq
         simp [emit_symbol_err _ _ _ _ heq, stateRank])

theorem step_hex_fraction_rank (cb : Callbacks) (l : GCodeLexer) (ch : Nat) :
    (step_hex_fraction cb l ch).backup = true →
    stateRank (step_hex_fraction cb l ch).lexer.state < stateRank .SCAN_HEX_FRACTION := by
  unfold step_hex_fraction
  (repeat' split) <;> intro h <;>
    first
      | (simp at h <;> exact h.elim)
      | (simp [stateRank, set_state, set_in_arg_value, set_expr_nesting,
               set_int_value, set_digit_count]
         done)
      | (rename_i l2 es heq
         simp [emit_int_err _ _ _ _ _ heq, stateRank])
      | (rename_i l2 es heq
         simp [emit_float_err _ _ _ _ heq, stateRank])
      | (rename_i l2 es heq
         simp [emit_symbol_err _ _ _ _ heq, stateRank])

theorem step_hex_exponent_sign_rank (l : GCodeLexer) (ch : Nat) :
    (step_hex_exponent_sign l ch).backup = true →
    stateRank (step_hex_exponent_sign l ch).lexer.state < stateRank .SCAN_HEX_EXPONENT_SIGN := by
  unfold step_hex_exponent_sign
  (repeat' split) <;> intro h <;>
    first
      | (simp at h <;> exact h.elim)
      | (simp [stateRank, set_state, set_in_arg_value, set_expr_nesting,
               set_int_value, set_digit_count]
         done)
      | (rename_i l2 es heq
         simp [emit_int_err _ _ _ _ _ heq, stateRank])
      | (rename_i l2 es heq
         simp [emit_float_err _ _ _ _ heq, stateRank])
      | (rename_i l2 es heq
         simp [emit_symbol_err _ _ _ _ heq, stateRank])

theorem step_hex_exponent_rank (cb : Callbacks) (l : GCodeLexer) (ch : Nat) :
    (step_hex_exponent cb l ch).backup = true →
    stateRank (step_hex_exponent cb l ch).lexer.state < stateRank .SCAN_HEX_EXPONENT := by
  unfold step_hex_exponent
  (repeat' split) <;> intro h <;>
    first
      | (simp at h <;> exact h.elim)
      | (simp [stateRank, set_state, set_in_arg_value, set_expr_nesting,
               set_int_value, set_digit_count]
         done)
      | (rename_i l2 es heq
         simp [emit_int_err _ _ _ _ _ heq, stateRank])
      | (rename_i l2 es heq
         simp [emit_float_err _ _ _ _ heq, stateRank])
      | (rename_i l2 es heq
         simp [emit_symbol_err _ _ _ _ heq, stateRank])

/-- Every `BACK_UP` re-dispatch strictly decreases `stateRank`. -/
theorem process1_rank (cb : Callbacks) (l : GCodeLexer) (ch : Nat) :
    (process1 cb l ch).backup = true →
    stateRank (process1 cb l ch).lexer.state < stateRank l.state := by
  cases hs : l.state <;> simp only [process1, hs] <;>
    first
      | exact step_newline_rank l ch
      | exact step_after_lineno_rank l ch
      | exact step_after_extended_separator_rank cb l ch
      | exact step_after_traditional_key_rank cb l ch
      | exact step_after_expr_rank cb l ch
      | exact step_symbol_rank cb l ch
      | exact step_identifier_rank cb l ch
      | exact step_str_escape_rank l ch
      | exact step_str_octal_rank l ch
      | exact step_str_hex_rank l ch
      | exact step_number_base_rank cb l ch
      | exact step_decimal_rank cb l ch
      | exact step_hex_rank cb l ch
      | exact step_binary_rank cb l ch
      | exact step_octal_rank cb l ch
      | exact step_dot_rank cb l ch
      | exact step_decimal_float_rank cb l ch
      | exact step_decimal_fraction_rank cb l ch
      | exact step_decimal_exponent_sign_rank l ch
      | exact step_decimal_exponent_rank cb l ch
      | exact step_hex_float_rank cb l ch
      | exact step_hex_fraction_rank cb l ch
      | exact step_hex_exponent_sign_rank l ch
      | exact step_hex_exponent_rank cb l ch
      | (intro h
         simp [step_error_state_nb, step_lineno_nb, step_command_name_nb,
               step_args_nb, step_extended_key_nb, step_after_extended_key_nb,
               step_arg_value_nb, step_comment_nb, step_empty_line_comment_nb,
               step_expr_nb, step_str_nb, step_str_low_unicode_nb,
               step_str_high_unicode_nb] at h)

/-- The dispatch fuel of `scan_byte` is always sufficient: any fuel above
the rank of the current state computes the same result. -/
theorem scan_byte_go_stable (cb : Callbacks) (ch : Nat) :
    ∀ n l, stateRank l.state < n →
    scan_byte_go cb n l ch = scan_byte_go cb (stateRank l.state + 1) l ch := by
  intro n
  induction n using Nat.strong_induction_on with
  | _ n ih =>
    intro l hn
    cases n with
    | zero => omega
    | succ m =>
      rw [scan_byte_go, scan_byte_go]
      by_cases hb : (process1 cb l ch).backup = true
      · rw [if_pos hb, if_pos hb]
        have hrank := process1_rank cb l ch hb
        have hbump : stateRank (bump_column (process1 cb l ch).lexer).state
            = stateRank (process1 cb l ch).lexer.state := rfl
        have e1 := ih m (by omega) (bump_column (process1 cb l ch).lexer)
          (by rw [hbump]; omega)
        have e2 := ih (stateRank l.state) (by omega)
          (bump_column (process1 cb l ch).lexer) (by rw [hbump]; omega)
        rw [e1, e2]
      · rw [if_neg hb, if_neg hb]

-- ------------------------------------------------------------------
-- C1: chunk-boundary invariance
-- ------------------------------------------------------------------

/-- Scanning a concatenation is scanning the pieces in sequence. -/
theorem scan_append (cb : Callbacks) (l : GCodeLexer) (xs ys : List Nat) :
    gcode_lexer_scan cb l (xs ++ ys) =
      ((gcode_lexer_scan cb (gcode_lexer_scan cb l xs).1 ys).1,
       (gcode_lexer_scan cb l xs).2 ++
         (gcode_lexer_scan cb (gcode_lexer_scan cb l xs).1 ys).2) := by
  induction xs generalizing l with
  | nil => simp [gcode_lexer_scan]
  | cons c t ih => simp [gcode_lexer_scan, ih, List.append_assoc]

/-- C1.  Chunk-boundary invariance: feeding any chunking of a byte sequence
to `gcode_lexer_scan` one call per chunk yields exactly the same final
lexer and the same sequence of emission-callback invocations (same
callbacks, same argument values, same order) as scanning the concatenated
sequence in a single call — for every starting lexer and every choice of
callback results. -/
theorem chunk_boundary_invariance (cb : Callbacks) (l : GCodeLexer)
    (chunks : List (List Nat)) :
    scan_chunks cb l chunks = gcode_lexer_scan cb l chunks.flatten := by
  induction chunks generalizing l with
  | nil => simp [scan_chunks, gcode_lexer_scan]
  | cons c cs ih =>
    simp only [scan_chunks, List.flatten, scan_append, ih]

-- ------------------------------------------------------------------
-- C9: the expression-nesting counter
-- ------------------------------------------------------------------

theorem emit_char_symbol_nesting (cb : Callbacks) (l : GCodeLexer)
    (c : Nat) :
    (emit_char_symbol cb l c).lexer.expr_nesting = l.expr_nesting := by
  unfold emit_char_symbol
  dsimp only
  split <;> rfl

/-- C9.  The expression-nesting counter never underflows or wraps: in the
`SCAN_EXPR` state a `'('` byte increments it by one, a `')'` byte maps it
to `expr_nesting - 1` in truncated natural subtraction (i.e. the decrement
is guarded and a `')'` seen at zero leaves it at zero), a `'}'` byte sets
it to zero, and any byte processed in the `SCAN_NEWLINE` state resets it
to zero; being a `Nat` (`size_t`) it is always a well-defined non-negative
count. -/
theorem expr_nesting_guarded (cb : Callbacks) (l : GCodeLexer) (ch : Nat) :
    (l.state = .SCAN_EXPR →
      ((ch = 40 →
         (process1 cb l ch).lexer.expr_nesting = l.expr_nesting + 1) ∧
       (ch = 41 →
         (process1 cb l ch).lexer.expr_nesting = l.expr_nesting - 1) ∧
       (ch = 125 → (process1 cb l ch).lexer.expr_nesting = 0))) ∧
    (l.state = .SCAN_NEWLINE →
      (process1 cb l ch).lexer.expr_nesting = 0) := by
  constructor
  · intro hs
    refine ⟨?_, ?_, ?_⟩
    · intro hch; subst hch
      simp [process1, hs, step_expr, is_blank, emit_char_symbol_nesting,
            set_expr_nesting]
    · intro hch; subst hch
      simp only [process1, hs, step_expr]
      norm_num [is_blank]
      split
      · rename_i hpos
        simp [emit_char_symbol_nesting, set_expr_nesting]
      · rename_i hpos
        have : l.expr_nesting = 0 := by omega
        simp [emit_char_symbol_nesting, this]
    · intro hch; subst hch
      simp only [process1, hs, step_expr]
      norm_num [is_blank]
      split
      · rename_i l2 es heq
        have h2 := emit_char_symbol_nesting cb (set_expr_nesting l 0) 125
        rw [heq] at h2
        simp [set_expr_nesting] at h2
        simp [set_state, h2]
      · rename_i l2 es heq
        have h2 := emit_char_symbol_nesting cb (set_expr_nesting l 0) 125
        rw [heq] at h2
        simp [set_expr_nesting] at h2
        simp [h2]
  · intro hs
    simp only [process1, hs, step_newline]
    (repeat' split) <;> simp [set_state, set_expr_nesting]

-- ------------------------------------------------------------------
-- C5: callback return values and the error state
-- ------------------------------------------------------------------

/-- C5 (amended).  For the keyword (`emit_symbol`/`emit_char_symbol`),
bridge, string-literal, identifier (`emit_ident`), integer and float
emission helpers, a false return from the callback sends the lexer to
`SCAN_ERROR`; the end-of-statement callback's return value is ignored (the
lexer proceeds to `SCAN_NEWLINE` regardless); an identifier emission via
`emit_keyword_or_identifier` (used inside expressions) leaves the lexer
state unchanged even when the callback returns false; and in the
`SCAN_ERROR` state the lexer emits nothing and absorbs every byte until a
newline returns it to `SCAN_NEWLINE`. -/
theorem callback_false_transitions (cb : Callbacks) (l : GCodeLexer)
    (v : Int) (ch : Nat) :
    ((emit_symbol cb l).ok = false →
       (emit_symbol cb l).lexer.state = .SCAN_ERROR) ∧
    ((emit_char_symbol cb l ch).ok = false →
       (emit_char_symbol cb l ch).lexer.state = .SCAN_ERROR) ∧
    ((emit_bridge cb l).ok = false →
       (emit_bridge cb l).lexer.state = .SCAN_ERROR) ∧
    ((emit_str cb l).ok = false →
       (emit_str cb l).lexer.state = .SCAN_ERROR) ∧
    ((emit_ident cb l).ok = false →
       (emit_ident cb l).lexer.state = .SCAN_ERROR) ∧
    ((emit_int cb l v).ok = false →
       (emit_int cb l v).lexer.state = .SCAN_ERROR) ∧
    ((emit_float cb l).ok = false →
       (emit_float cb l).lexer.state = .SCAN_ERROR) ∧
    ((emit_end_of_statement cb l).lexer.state = .SCAN_NEWLINE) ∧
    ((emit_keyword_or_identifier cb l).lexer.state = l.state) ∧
    (l.state = .SCAN_ERROR →
       (process1 cb l ch).out = [] ∧
       (process1 cb l ch).lexer =
         if ch = 10 then set_state l .SCAN_NEWLINE else l) := by
  refine ⟨emit_symbol_err_aux cb l, ?_, ?_, ?_, ?_, emit_int_err_aux cb l v,
          emit_float_err_aux cb l, rfl, rfl, ?_⟩
  · unfold emit_char_symbol
    dsimp only
    split
    · intro h; cases h
    · intro _; rfl
  · unfold emit_bridge
    dsimp only
    split
    · intro h; cases h
    · intro _; rfl
  · unfold emit_str
    dsimp only
    split
    · intro h; cases h
    · intro _; rfl
  · unfold emit_ident
    dsimp only
    split
    · intro h; cases h
    · intro _; rfl
  · intro hs
    simp only [process1, hs, step_error_state]
    by_cases h : ch = 10 <;> simp [h, set_state]

/-- Witness for C5's amended theorem: with all-false callbacks, a
string-literal emission really does return false and really does leave the
lexer in the error state. -/
theorem callback_false_transitions_witness :
    (emit_str cb_false init0).ok = false ∧
    (emit_str cb_false init0).lexer.state = State.SCAN_ERROR := by
  refine ⟨by decide, ?_⟩
  exact (callback_false_transitions cb_false init0 0 0).2.2.2.1 (by decide)

/-- C5 counterexample: the end-of-statement callback returns false, yet
the lexer does not transition to the error state — `emit_end_of_statement`
ignores the callback's return value and proceeds to `SCAN_NEWLINE`. -/
theorem eos_callback_false_not_error :
    cb_false.endStatement = false ∧
    (emit_end_of_statement cb_false init0).lexer.state ≠ State.SCAN_ERROR ∧
    (emit_end_of_statement cb_false init0).lexer.state =
      State.SCAN_NEWLINE := by
  exact ⟨rfl, by decide, by decide⟩

-- ------------------------------------------------------------------
-- C7: comment-only first line
-- ------------------------------------------------------------------

/-- C7 counterexample: scanning `"; just a comment\nG28\n"` does NOT
produce the emission sequence eos, ident("G28"), eos claimed by the spec —
`SCAN_EMPTY_LINE_COMMENT` returns to `SCAN_NEWLINE` without emitting an
end-of-statement token. -/
theorem comment_line_no_leading_eos :
    (gcode_lexer_scan cb_true init0 (bytes "; just a comment\nG28\n")).2 ≠
      [Emission.endStatement, Emission.ident (bytes "G28"),
       Emission.endStatement] := by
  decide

/-- C7 (amended).  Scanning `"; just a comment\nG28\n"` emits exactly
ident("G28") then end-of-statement: the comment-only first line contributes
no token at all (comment-only and empty lines are ignored). -/
theorem comment_line_emissions :
    (gcode_lexer_scan cb_true init0 (bytes "; just a comment\nG28\n")).2 =
      [Emission.ident (bytes "G28"), Emission.endStatement] := by
  decide

-- ------------------------------------------------------------------
-- C2: integer literal delivery
-- ------------------------------------------------------------------

/-- C2 failing input: the decimal literal 4294967296 = 2^32 lies well
inside `[0, INT64_MAX]` and is accumulated exactly in the 64-bit
`int_value`, but `emit_int` declares its value parameter as C `int`, so the
delivered integer-literal value is the 32-bit truncation 0, not
4294967296. -/
theorem int_truncation_at_failing_input :
    (gcode_lexer_scan cb_true init0 (bytes "X \x7b4294967296\x7d\n")).2 =
      [Emission.ident (bytes "X"), Emission.keyword (bytes "\x7b"),
       Emission.intLit 0, Emission.keyword (bytes "\x7d"),
       Emission.errorFmt "Expected \x27=\x27 after parameter name",
       Emission.endStatement] ∧
    wrap32 4294967296 = 0 ∧ (4294967296 : Int) ≤ int64_max := by
  refine ⟨by decide, by decide, by decide⟩

-- ------------------------------------------------------------------
-- C3: reserved words inside expressions
-- ------------------------------------------------------------------

/-- C3 failing input: inside a `{...}` expression the identifier `IF` is
folded to lower case and delivered through the identifier callback — no
keyword-table lookup happens (`emit_keyword_or_identifier` calls
`lex_identifier` unconditionally), even though the table maps `"IF"` to
token id 278. -/
theorem reserved_word_emitted_as_identifier :
    (gcode_lexer_scan cb_true init0 (bytes "X \x7bIF\x7d\n")).2 =
      [Emission.ident (bytes "X"), Emission.keyword (bytes "\x7b"),
       Emission.ident (bytes "if"), Emission.keyword (bytes "\x7d"),
       Emission.errorFmt "Expected \x27=\x27 after parameter name",
       Emission.endStatement] ∧
    gcode_keyword_lookup (bytes "IF") = some (bytes "IF", 278) := by
  refine ⟨by decide, by decide⟩

-- ------------------------------------------------------------------
-- C8: \x string escapes
-- ------------------------------------------------------------------

/-- C8 failing input: in the string `"\xAG"` the byte `'G'` is treated as
a hexadecimal digit of value 16 (`hex_digit_to_int` accepts `'A'..'Z'`),
so the escape accumulates 10*16+16 = 176 = 0xB0 and the emitted string is
the single byte 0xB0 — instead of the byte 0x0A followed by the ordinary
character `'G'` that the C hex-escape grammar prescribes. -/
theorem hex_escape_consumes_nonhex_digit :
    (gcode_lexer_scan cb_true init0 (bytes "X \x7b\"\\xAG\"\x7d\n")).2 =
      [Emission.ident (bytes "X"), Emission.keyword (bytes "\x7b"),
       Emission.strLit [176], Emission.keyword (bytes "\x7d"),
       Emission.errorFmt "Expected \x27=\x27 after parameter name",
       Emission.endStatement] ∧
    hex_digit_to_int ('G'.toNat) = 16 := by
  refine ⟨by decide, by decide⟩

-- ------------------------------------------------------------------
-- C10: reset versus a freshly created lexer
-- ------------------------------------------------------------------

theorem reset_eq_new (l : GCodeLexer) :
    gcode_lexer_reset l = gcode_lexer_new (scratch_of l) l.location := by
  cases l
  rfl

/-- C10 (amended).  `gcode_lexer_reset` restores the `SCAN_NEWLINE` state,
empties the token buffer and sets line and column to 1; the fields it does
not touch (`expr_nesting`, `int_value`, `digit_count`, `arg_mode`,
`after_str`, `in_arg_value`) keep their stale values, so a reset lexer is
observationally equivalent to a lexer freshly created by `gcode_lexer_new`
precisely when the fresh lexer's uninitialised fields happen to hold the
same values: scanning any byte sequence from either then gives identical
results. -/
theorem reset_equiv_same_scratch (cb : Callbacks) (l : GCodeLexer)
    (bs : List Nat) :
    gcode_lexer_scan cb (gcode_lexer_reset l) bs =
      gcode_lexer_scan cb (gcode_lexer_new (scratch_of l) l.location) bs := by
  rw [reset_eq_new]

/-- The lexer state left behind by scanning `"G1 X5\n"` (a Traditional-mode
statement); it ends with `in_arg_value = true`. -/
def lexA : GCodeLexer := (gcode_lexer_scan cb_true init0 (bytes "G1 X5\n")).1

/-- C10 counterexample: after scanning `"G1 X5\n"` and resetting, scanning
`"G1 \"K\" \n"` emits no empty-string token (the stale `in_arg_value =
true` suppresses the Traditional-mode empty-value emission), while a
freshly created lexer whose indeterminate fields happen to be zero/false
emits one — so reset is not unconditionally equivalent to a fresh lexer. -/
theorem reset_not_fresh :
    (gcode_lexer_scan cb_true (gcode_lexer_reset lexA)
        (bytes "G1 \"K\" \n")).2 ≠
      (gcode_lexer_scan cb_true (gcode_lexer_new scratch0 none)
        (bytes "G1 \"K\" \n")).2 := by
  decide

-- ------------------------------------------------------------------
-- C4: the keyword table
-- ------------------------------------------------------------------

/-- C4 counterexample: the table contains no entry for `TRUE`, `FALSE`,
`[`, `]`, `{` or `}` — `gcode_keyword_lookup` returns null for all six,
although the claim lists them among the keyword set. -/
theorem keyword_lookup_missing_entries :
    gcode_keyword_lookup (bytes "TRUE") = none ∧
    gcode_keyword_lookup (bytes "FALSE") = none ∧
    gcode_keyword_lookup (bytes "[") = none ∧
    gcode_keyword_lookup (bytes "]") = none ∧
    gcode_keyword_lookup (bytes "\x7b") = none ∧
    gcode_keyword_lookup (bytes "\x7d") = none := by
  decide

/-- C4 (amended).  `gcode_keyword_lookup` succeeds on exactly the 24
strings of `keyword_entries` (token ids 262–285, a sub-range of the
parser's dense 258–293 token range), returning the matching entry, and
returns null on every other string — in particular on `[`, `]`, `{`, `}`,
`TRUE` and `FALSE`, which have parser token ids but no table entry. -/
theorem keyword_lookup_contents :
    (∀ p ∈ keyword_entries, gcode_keyword_lookup p.1 = some p) ∧
    (∀ s w, gcode_keyword_lookup s = some w →
       w ∈ keyword_entries ∧ s = w.1) := by
  constructor
  · decide
  · intro s w h
    unfold gcode_keyword_lookup at h
    split at h
    case isFalse => cases h
    case isTrue hlen =>
      split at h
      case isFalse => cases h
      case isTrue hkey =>
        split at h
        case isFalse => cases h
        case isTrue hs =>
          injection h with h
          subst h
          obtain ⟨k, hk⟩ :
              ∃ k, s.length + asso_value (s.headD 0) = k := ⟨_, rfl⟩
          rw [hk] at hkey hs ⊢
          interval_cases k <;>
            first
              | exact ⟨by decide, hs⟩
              | (simp [wordlist] at hs
                 subst hs
                 simp at hlen)

/-- Witness for C4's amended theorem, at the concrete entry `IF`. -/
theorem keyword_lookup_contents_witness :
    gcode_keyword_lookup (bytes "IF") = some (bytes "IF", 278) ∧
    ((bytes "IF", 278) ∈ keyword_entries ∧
       bytes "IF" = (bytes "IF", 278).1) := by
  refine ⟨?_, ?_⟩
  · exact keyword_lookup_contents.1 (bytes "IF", 278) (by decide)
  · exact keyword_lookup_contents.2 (bytes "IF") (bytes "IF", 278) (by decide)

-- ------------------------------------------------------------------
-- C6: Raw-mode argument scanning
-- ------------------------------------------------------------------

theorem cstr_append_zero (xs : List Nat) : cstr (xs ++ [0]) = cstr xs := by
  induction xs with
  | nil => rfl
  | cons a t ih => by_cases ha : a = 0 <;> simp [cstr, ha] <;> simpa [cstr] using ih

theorem advance_pos_state (l : GCodeLexer) (ch : Nat) :
    (advance_pos l ch).state = l.state := by
  unfold advance_pos bump_column
  split <;> rfl

theorem advance_pos_arg_mode (l : GCodeLexer) (ch : Nat) :
    (advance_pos l ch).arg_mode = l.arg_mode := by
  unfold advance_pos bump_column
  split <;> rfl

theorem advance_pos_token (l : GCodeLexer) (ch : Nat) :
    (advance_pos l ch).token = l.token := by
  unfold advance_pos bump_column
  split <;> rfl

theorem step_arg_value_raw (l : GCodeLexer) (b : Nat)
    (hm : l.arg_mode = .ARG_RAW) (h10 : b ≠ 10) (h34 : b ≠ 34)
    (h123 : b ≠ 123) :
    step_arg_value cb_true l b = ⟨token_char l b, [], false⟩ := by
  unfold step_arg_value
  rw [if_neg h10]
  by_cases h59 : b = 59
  · subst h59
    rw [if_pos rfl, if_pos hm]
  · rw [if_neg h59]
    by_cases hbl : is_blank b = true
    · rw [if_pos hbl, if_pos hm]
    · rw [if_neg hbl, if_neg h34, if_neg h123]

theorem scan_byte_raw (l : GCodeLexer) (b : Nat)
    (hs : l.state = .SCAN_ARG_VALUE) (hm : l.arg_mode = .ARG_RAW)
    (h10 : b ≠ 10) (h34 : b ≠ 34) (h123 : b ≠ 123) :
    scan_byte cb_true l b = (advance_pos (token_char l b) b, []) := by
  unfold scan_byte
  rw [hs]
  show scan_byte_go cb_true 1 l b = _
  rw [scan_byte_go]
  have hp : process1 cb_true l b = ⟨token_char l b, [], false⟩ := by
    simp only [process1, hs]
    exact step_arg_value_raw l b hm h10 h34 h123
  rw [hp]
  rfl

theorem process1_raw_nl (l : GCodeLexer) (hs : l.state = .SCAN_ARG_VALUE)
    (htok : l.token ≠ []) :
    ∃ l2, process1 cb_true l 10 =
      ⟨l2, [Emission.strLit (cstr l.token), Emission.endStatement],
       false⟩ := by
  have he : emit_possible_str cb_true l =
      ⟨free_token (token_char (token_stop l) 0),
       [Emission.strLit (cstr l.token)], true⟩ := by
    have hpay : cstr (token_char (token_stop l) 0).token = cstr l.token := by
      show cstr (l.token ++ [0]) = cstr l.token
      exact cstr_append_zero l.token
    unfold emit_possible_str
    rw [if_pos (by simpa using htok)]
    unfold emit_str
    dsimp only
    rw [hpay]
    rfl
  simp only [process1, hs, step_arg_value]
  rw [if_pos trivial, he]
  exact ⟨_, rfl⟩

theorem scan_byte_raw_nl (l : GCodeLexer) (hs : l.state = .SCAN_ARG_VALUE)
    (htok : l.token ≠ []) :
    ∃ l2, scan_byte cb_true l 10 =
      (l2, [Emission.strLit (cstr l.token), Emission.endStatement]) := by
  obtain ⟨l2, hp⟩ := process1_raw_nl l hs htok
  refine ⟨advance_pos l2 10, ?_⟩
  unfold scan_byte
  rw [hs]
  show scan_byte_go cb_true 1 l 10 = _
  rw [scan_byte_go, hp]
  rfl

theorem raw_value_run :
    ∀ (rest : List Nat) (l : GCodeLexer),
      l.state = .SCAN_ARG_VALUE → l.arg_mode = .ARG_RAW → l.token ≠ [] →
      (∀ b ∈ rest, b ≠ 10 ∧ b ≠ 34 ∧ b ≠ 123) →
      (gcode_lexer_scan cb_true l (rest ++ [10])).2 =
        [Emission.strLit (cstr (l.token ++ rest)),
         Emission.endStatement] := by
  intro rest
  induction rest with
  | nil =>
    intro l hs _ htok _
    obtain ⟨l2, hb⟩ := scan_byte_raw_nl l hs htok
    simp [gcode_lexer_scan, hb]
  | cons b t ih =>
    intro l hs hm htok hrest
    have hb := hrest b (by simp)
    rw [List.cons_append, gcode_lexer_scan]
    dsimp only
    rw [scan_byte_raw l b hs hm hb.1 hb.2.1 hb.2.2]
    dsimp only
    have ihx := ih (advance_pos (token_char l b) b)
      (by rw [advance_pos_state]; exact hs)
      (by rw [advance_pos_arg_mode]; exact hm)
      (by rw [advance_pos_token]; simp [token_char])
      (fun x hx => hrest x (by simp [hx]))
    rw [ihx]
    rw [advance_pos_token]
    simp [token_char]

theorem scan_args_blanks :
    ∀ (sp : List Nat) (l : GCodeLexer), l.state = .SCAN_ARGS →
      (∀ b ∈ sp, is_blank b = true) →
      (gcode_lexer_scan cb_true l sp).2 = [] ∧
      (gcode_lexer_scan cb_true l sp).1.state = .SCAN_ARGS ∧
      (gcode_lexer_scan cb_true l sp).1.arg_mode = l.arg_mode ∧
      (gcode_lexer_scan cb_true l sp).1.token = l.token := by
  intro sp
  induction sp with
  | nil => intro l hs _; exact ⟨rfl, hs, rfl, rfl⟩
  | cons b t ih =>
    intro l hs hsp
    have hb : is_blank b = true := hsp b (by simp)
    have hp : process1 cb_true l b = ⟨l, [], false⟩ := by
      simp only [process1, hs]
      simp only [is_blank, decide_eq_true_eq] at hb
      rcases hb with rfl | rfl | rfl | rfl <;> simp [step_args, is_blank]
    have hstep : scan_byte cb_true l b = (advance_pos l b, []) := by
      unfold scan_byte
      rw [hs]
      show scan_byte_go cb_true 1 l b = _
      rw [scan_byte_go, hp]
      rfl
    rw [gcode_lexer_scan]
    dsimp only
    rw [hstep]
    dsimp only
    have ihx := ih (advance_pos l b)
      (by rw [advance_pos_state]; exact hs)
      (fun x hx => hsp x (by simp [hx]))
    refine ⟨by simp [ihx.1], by simp [ihx.2.1], ?_, ?_⟩
    · rw [ihx.2.2.1, advance_pos_arg_mode]
    · rw [ihx.2.2.2, advance_pos_token]

theorem scan_args_raw_first (l : GCodeLexer) (c : Nat)
    (hs : l.state = .SCAN_ARGS) (hm : l.arg_mode = .ARG_RAW)
    (hcb : is_blank c = false)
    (hc : c ≠ 10 ∧ c ≠ 59 ∧ c ≠ 61 ∧ c ≠ 34 ∧ c ≠ 123) :
    scan_byte cb_true l c =
      (advance_pos (set_state (token_char (token_start l) c)
         .SCAN_ARG_VALUE) c, []) := by
  have hp : process1 cb_true l c =
      ⟨set_state (token_char (token_start l) c) .SCAN_ARG_VALUE, [],
       false⟩ := by
    simp only [process1, hs]
    unfold step_args
    rw [if_neg hc.2.2.2.2, if_neg hc.2.2.2.1, if_neg hc.1, if_neg hc.2.1,
        if_neg hc.2.2.1, if_neg (by simp [hcb]), hm]
  unfold scan_byte
  rw [hs]
  show scan_byte_go cb_true 1 l c = _
  rw [scan_byte_go, hp]
  rfl

theorem raw_args_tail (sp rest : List Nat) (c : Nat)
    (hsp : ∀ b ∈ sp, is_blank b = true)
    (hcb : is_blank c = false)
    (hc : c ≠ 10 ∧ c ≠ 59 ∧ c ≠ 61 ∧ c ≠ 34 ∧ c ≠ 123)
    (hrest : ∀ b ∈ rest, b ≠ 10 ∧ b ≠ 34 ∧ b ≠ 123)
    (l : GCodeLexer) (hs : l.state = .SCAN_ARGS)
    (hm : l.arg_mode = .ARG_RAW) (htok0 : l.token = []) :
    (gcode_lexer_scan cb_true l (sp ++ c :: (rest ++ [10]))).2 =
      [Emission.strLit (cstr (c :: rest)), Emission.endStatement] := by
  have hb := scan_args_blanks sp l hs hsp
  rw [scan_append]
  dsimp only
  rw [hb.1, List.nil_append]
  rw [gcode_lexer_scan]
  dsimp only
  rw [scan_args_raw_first _ c hb.2.1 (hb.2.2.1.trans hm) hcb hc]
  dsimp only
  rw [raw_value_run rest _
    (by rw [advance_pos_state]; rfl)
    (by rw [advance_pos_arg_mode]
        show (gcode_lexer_scan cb_true l sp).1.arg_mode = _
        exact hb.2.2.1.trans hm)
    (by rw [advance_pos_token]; simp [set_state, token_char, token_start])
    hrest]
  rw [advance_pos_token]
  show [] ++ [Emission.strLit (cstr
      (((gcode_lexer_scan cb_true l sp).1.token ++ [c]) ++ rest)),
    Emission.endStatement] = _
  rw [hb.2.2.2, htok0]
  rfl

/-- C6 (amended).  For a statement whose command name is `M117` or `ECHO`
(Raw argument mode), once the raw value has begun — i.e. after the blanks
following the command name, at the first byte that is not a newline, not a
semicolon, not `=`, not `"` and not `\x7b` — the remainder of the line up
to but excluding the terminating newline, including any later `;` bytes,
is emitted as a single string-literal token.  (The original claim fails
for a `;` that appears before any raw text: a leading semicolon still
starts a comment, see the counterexample.) -/
theorem raw_mode_single_string (name sp rest : List Nat) (c : Nat)
    (hname : name = bytes "M117" ∨ name = bytes "ECHO")
    (hsp : ∀ b ∈ sp, is_blank b = true)
    (hcb : is_blank c = false)
    (hc : c ≠ 10 ∧ c ≠ 59 ∧ c ≠ 61 ∧ c ≠ 34 ∧ c ≠ 123)
    (hrest : ∀ b ∈ rest, b ≠ 10 ∧ b ≠ 34 ∧ b ≠ 123) :
    (gcode_lexer_scan cb_true init0
       ((name ++ [32]) ++ (sp ++ c :: (rest ++ [10])))).2 =
      [Emission.ident name, Emission.strLit (cstr (c :: rest)),
       Emission.endStatement] := by
  rw [scan_append]
  dsimp only
  rcases hname with h | h <;> subst h
  · have hpre : (gcode_lexer_scan cb_true init0 (bytes "M117" ++ [32])).2 =
        [Emission.ident (bytes "M117")] := by decide
    rw [raw_args_tail sp rest c hsp hcb hc hrest _
          (by decide) (by decide) (by decide), hpre]
    rfl
  · have hpre : (gcode_lexer_scan cb_true init0 (bytes "ECHO" ++ [32])).2 =
        [Emission.ident (bytes "ECHO")] := by decide
    rw [raw_args_tail sp rest c hsp hcb hc hrest _
          (by decide) (by decide) (by decide), hpre]
    rfl

/-- Witness for C6 at the concrete statement `M117 hi\n`. -/
theorem raw_mode_single_string_witness :
    (gcode_lexer_scan cb_true init0
       ((bytes "M117" ++ [32]) ++ ([] ++ 104 :: (bytes "i" ++ [10])))).2 =
      [Emission.ident (bytes "M117"),
       Emission.strLit (cstr (104 :: bytes "i")),
       Emission.endStatement] :=
  raw_mode_single_string (bytes "M117") [] (bytes "i") 104
    (Or.inl rfl) (by decide) (by decide) (by decide) (by decide)

/-- Counterexample to C6 as stated: in `M117 ;x\n` the semicolon appears
before any raw text has begun, so it starts a comment — the remainder of
the line is NOT emitted as a string literal (no `strLit` emission at
all). -/
theorem raw_leading_semicolon_comment :
    (gcode_lexer_scan cb_true init0 (bytes "M117 ;x\n")).2 =
      [Emission.ident (bytes "M117"), Emission.endStatement] := by
  decide

/-- Witness for C9 at a concrete `SCAN_EXPR` lexer with `(` and at the
fresh `SCAN_NEWLINE` lexer with `%`. -/
theorem expr_nesting_guarded_witness :
    (process1 cb_true (set_state init0 .SCAN_EXPR) 40).lexer.expr_nesting
        = (set_state init0 .SCAN_EXPR).expr_nesting + 1 ∧
    (process1 cb_true init0 37).lexer.expr_nesting = 0 :=
  ⟨((expr_nesting_guarded cb_true (set_state init0 .SCAN_EXPR) 40).1
      rfl).1 rfl,
   (expr_nesting_guarded cb_true init0 37).2 rfl⟩
